import Mathlib

/-!
Shallow embedding of the ClimeCapsule weather application
(`src/weather/clime_capsule.py`, `src/weather/db.py`, `src/api.py`).

Numeric observation fields are modelled as exact rationals; Python `None`
values are modelled as `Option.none`; Python exceptions are modelled by the
`Except` monad over the `PyExc` type below.  Python `datetime.date` objects
are modelled by the `Date` structure, which carries the validity invariant
that `datetime.date` enforces at construction time.
-/

namespace ClimeCapsule

/-- Python exceptions that the modelled code can raise. -/
inductive PyExc where
  | valueError : PyExc
  | typeError : PyExc
  | validationError : PyExc
  | rateLimitException : PyExc
  | httpError : Nat → PyExc
  | overflowError : PyExc
  deriving DecidableEq, Repr

/-! ### Calendar model (Python `datetime.date` / `timedelta(days=1)`) -/

/-- Gregorian leap-year rule, as used by Python's `datetime`. -/
def isLeap (y : Nat) : Bool :=
  (y % 4 == 0 && y % 100 != 0) || (y % 400 == 0)

/-- Days in each month, parametrised by the leap flag. -/
def dimB (leap : Bool) (m : Nat) : Nat :=
  match m with
  | 1 => 31
  | 2 => if leap then 29 else 28
  | 3 => 31
  | 4 => 30
  | 5 => 31
  | 6 => 30
  | 7 => 31
  | 8 => 31
  | 9 => 30
  | 10 => 31
  | 11 => 30
  | 12 => 31
  | _ => 0

/-- Days in month `m` of year `y`. -/
def daysInMonth (y m : Nat) : Nat := dimB (isLeap y) m

/-- Cumulative number of days in the months strictly before month `m`. -/
def daysBeforeMonth (leap : Bool) (m : Nat) : Nat :=
  match m with
  | 1 => 0
  | 2 => 31
  | 3 => 59 + (if leap then 1 else 0)
  | 4 => 90 + (if leap then 1 else 0)
  | 5 => 120 + (if leap then 1 else 0)
  | 6 => 151 + (if leap then 1 else 0)
  | 7 => 181 + (if leap then 1 else 0)
  | 8 => 212 + (if leap then 1 else 0)
  | 9 => 243 + (if leap then 1 else 0)
  | 10 => 273 + (if leap then 1 else 0)
  | 11 => 304 + (if leap then 1 else 0)
  | 12 => 334 + (if leap then 1 else 0)
  | _ => 0

/-- A calendar date.  Mirrors Python's `datetime.date`, which validates
its components at construction time — including `MINYEAR = 1` and
`MAXYEAR = 9999` — so the invariant is part of the type. -/
structure Date where
  year : Nat
  month : Nat
  day : Nat
  hvalid : 1 ≤ year ∧ year ≤ 9999 ∧ 1 ≤ month ∧ month ≤ 12
    ∧ 1 ≤ day ∧ day ≤ daysInMonth year month

theorem Date.ext_nums {a b : Date} (hy : a.year = b.year) (hm : a.month = b.month)
    (hd : a.day = b.day) : a = b := by
  cases a; cases b; simp_all

instance : DecidableEq Date := fun a b =>
  decidable_of_iff (a.year = b.year ∧ a.month = b.month ∧ a.day = b.day)
    ⟨fun h => Date.ext_nums h.1 h.2.1 h.2.2, fun h => by subst h; exact ⟨rfl, rfl, rfl⟩⟩

/-- Python `date` comparison: lexicographic on (year, month, day). -/
def Date.le (a b : Date) : Prop :=
  a.year < b.year ∨ (a.year = b.year ∧
    (a.month < b.month ∨ (a.month = b.month ∧ a.day ≤ b.day)))

/-- Strict version of `Date.le`. -/
def Date.lt (a b : Date) : Prop :=
  a.year < b.year ∨ (a.year = b.year ∧
    (a.month < b.month ∨ (a.month = b.month ∧ a.day < b.day)))

instance (a b : Date) : Decidable (Date.le a b) := by
  unfold Date.le; infer_instance

instance (a b : Date) : Decidable (Date.lt a b) := by
  unfold Date.lt; infer_instance

/-- Every real month has at least one day. -/
theorem dimB_pos (b : Bool) (m : Nat) (h1 : 1 ≤ m) (h2 : m ≤ 12) : 1 ≤ dimB b m := by
  unfold dimB
  interval_cases m <;> cases b <;> simp

/-- Python `start_date + timedelta(days=1)` / `dt + timedelta(days=1)`:
the next calendar day, raising `OverflowError` ("date value out of range")
past `date.max = 9999-12-31`. -/
def nextDay (d : Date) : Except PyExc Date :=
  if h : d.day < daysInMonth d.year d.month then
    Except.ok ⟨d.year, d.month, d.day + 1, by
      obtain ⟨h1, h1b, h2, h3, h4, h5⟩ := d.hvalid
      exact ⟨h1, h1b, h2, h3, by omega, by omega⟩⟩
  else if h2 : d.month < 12 then
    Except.ok ⟨d.year, d.month + 1, 1, by
      obtain ⟨h1, h1b, hm1, hm2, h4, h5⟩ := d.hvalid
      exact ⟨h1, h1b, by omega, by omega, le_refl 1,
        dimB_pos (isLeap d.year) (d.month + 1) (by omega) (by omega)⟩⟩
  else if h3 : d.year < 9999 then
    Except.ok ⟨d.year + 1, 1, 1, by
      exact ⟨by omega, by omega, le_refl 1, by omega, le_refl 1,
        dimB_pos (isLeap (d.year + 1)) 1 (by omega) (by omega)⟩⟩
  else
    Except.error PyExc.overflowError

/-- The largest representable date, `datetime.date.max`. -/
def maxDate : Date := ⟨9999, 12, 31, by decide⟩

/-- Rata-die style day count for a date (days since the calendar epoch). -/
def toDays (d : Date) : Nat :=
  365 * (d.year - 1) + (d.year - 1) / 4 - (d.year - 1) / 100 + (d.year - 1) / 400
    + daysBeforeMonth (isLeap d.year) d.month + d.day

/-- Leap-day count difference between consecutive years. -/
theorem leapCount_succ (y : Nat) (hy : 1 ≤ y) :
    y / 4 - y / 100 + y / 400
      = ((y - 1) / 4 - (y - 1) / 100 + (y - 1) / 400) + (if isLeap y then 1 else 0) := by
  have : isLeap y = true ↔ ((y % 4 = 0 ∧ ¬ y % 100 = 0) ∨ y % 400 = 0) := by
    simp [isLeap]
  rcases h : isLeap y with _ | _ <;> simp_all <;> omega

/-- The cumulative month-day table is consistent with the month lengths. -/
theorem daysBeforeMonth_succ (b : Bool) (m : Nat) (h1 : 1 ≤ m) (h2 : m ≤ 11) :
    daysBeforeMonth b (m + 1) = daysBeforeMonth b m + dimB b m := by
  interval_cases m <;> cases b <;> rfl

/-- Advancing a date by one day advances its day count by one. -/
theorem toDays_nextDay {d d' : Date} (h : nextDay d = Except.ok d') :
    toDays d' = toDays d + 1 := by
  obtain ⟨y, m, dd, hv⟩ := d
  obtain ⟨hy, hy2, hm1, hm2, hd1, hd2⟩ := hv
  unfold nextDay at h
  dsimp only at *
  unfold daysInMonth at hd2
  split_ifs at h with hcase h2 h3
  · obtain rfl := Except.ok.inj h
    unfold toDays
    dsimp only
    unfold daysInMonth at hcase
    set a := (y - 1) / 4 with ha
    set b := (y - 1) / 100 with hb
    set c := (y - 1) / 400 with hc
    omega
  · obtain rfl := Except.ok.inj h
    unfold toDays
    dsimp only
    unfold daysInMonth at hcase
    have hde : dd = dimB (isLeap y) m := by omega
    have hs := daysBeforeMonth_succ (isLeap y) m hm1 (by omega)
    set a := (y - 1) / 4 with ha
    set b := (y - 1) / 100 with hb
    set c := (y - 1) / 400 with hc
    omega
  · obtain rfl := Except.ok.inj h
    unfold toDays
    dsimp only
    have hm12 : m = 12 := by omega
    subst hm12
    have h31 : dimB (isLeap y) 12 = 31 := by cases isLeap y <;> rfl
    rw [h31] at hd2
    unfold daysInMonth at hcase
    rw [h31] at hcase
    have hde : dd = 31 := by omega
    subst hde
    have hl := leapCount_succ y hy
    have hb1 : daysBeforeMonth (isLeap (y + 1)) 1 = 0 := by
      cases isLeap (y + 1) <;> rfl
    have hb12 : daysBeforeMonth (isLeap y) 12 = 334 + (if isLeap y then 1 else 0) := by
      cases isLeap y <;> rfl
    rw [hb1, hb12]
    have hy1 : y + 1 - 1 = y := by omega
    rw [hy1]
    have hpq : y / 100 ≤ y / 4 := Nat.div_le_div_left (by omega) (by omega)
    have hab : (y - 1) / 100 ≤ (y - 1) / 4 := Nat.div_le_div_left (by omega) (by omega)
    set p := y / 4 with hsp
    set q := y / 100 with hsq
    set r := y / 400 with hsr
    set a := (y - 1) / 4 with hsa
    set b := (y - 1) / 100 with hsb
    set c := (y - 1) / 400 with hsc
    set bit := (if isLeap y then 1 else 0) with hbit
    omega

/-- The successor is defined everywhere except at `date.max`. -/
theorem nextDay_ok_of_ne {d : Date} (h : d ≠ maxDate) :
    ∃ d', nextDay d = Except.ok d' := by
  unfold nextDay
  split_ifs with h1 h2 h3
  · exact ⟨_, rfl⟩
  · exact ⟨_, rfl⟩
  · exact ⟨_, rfl⟩
  · exfalso
    obtain ⟨hy, hy2, hm1, hm2, hd1, hd2⟩ := d.hvalid
    have hy9 : d.year = 9999 := by omega
    have hm12 : d.month = 12 := by omega
    have h31 : daysInMonth d.year d.month = 31 := by
      rw [hy9, hm12]
      rfl
    have hd31 : d.day = 31 := by omega
    exact h (Date.ext_nums hy9 hm12 hd31)

theorem nextDay_maxDate : nextDay maxDate = Except.error PyExc.overflowError := rfl

/-- Every representable date is at most `date.max`. -/
theorem Date.le_maxDate (d : Date) : Date.le d maxDate := by
  obtain ⟨hy, hy2, hm1, hm2, hd1, hd2⟩ := d.hvalid
  have hdim : daysInMonth d.year d.month ≤ 31 := by
    unfold daysInMonth
    have : ∀ b : Bool, ∀ m, m < 13 → dimB b m ≤ 31 := by decide
    rcases Nat.lt_or_ge d.month 13 with hlt | hge
    · exact this _ _ hlt
    · omega
  unfold Date.le maxDate
  dsimp only
  omega

/-- Day count contributed by the full years before year `y`. -/
def yearDays (y : Nat) : Nat :=
  365 * (y - 1) + (y - 1) / 4 - (y - 1) / 100 + (y - 1) / 400

theorem toDays_eq (d : Date) :
    toDays d = yearDays d.year + daysBeforeMonth (isLeap d.year) d.month + d.day := rfl

theorem div25_bounds (a : Nat) : 25 * (a / 25) ≤ a ∧ a < 25 * (a / 25) + 25 := by omega

theorem div4_bounds (a : Nat) : 4 * (a / 4) ≤ a ∧ a < 4 * (a / 4) + 4 := by omega

theorem yearDays_mono {y1 y2 : Nat} (h : y1 ≤ y2) : yearDays y1 ≤ yearDays y2 := by
  unfold yearDays
  obtain ⟨u1, hu1⟩ : ∃ u, (y1 - 1) / 4 / 25 = u := ⟨_, rfl⟩
  obtain ⟨u2, hu2⟩ : ∃ u, (y2 - 1) / 4 / 25 = u := ⟨_, rfl⟩
  have e1 : (y1 - 1) / 100 = u1 := by rw [← hu1, Nat.div_div_eq_div_mul]
  have e3 : (y2 - 1) / 100 = u2 := by rw [← hu2, Nat.div_div_eq_div_mul]
  obtain ⟨v1, hv1⟩ : ∃ v, u1 / 4 = v := ⟨_, rfl⟩
  obtain ⟨v2, hv2⟩ : ∃ v, u2 / 4 = v := ⟨_, rfl⟩
  have e2 : (y1 - 1) / 400 = v1 := by
    rw [← hv1, ← e1, Nat.div_div_eq_div_mul]
  have e4 : (y2 - 1) / 400 = v2 := by
    rw [← hv2, ← e3, Nat.div_div_eq_div_mul]
  have hb1 := div25_bounds ((y1 - 1) / 4)
  have hb2 := div25_bounds ((y2 - 1) / 4)
  rw [hu1] at hb1
  rw [hu2] at hb2
  have hc1 := div4_bounds u1
  have hc2 := div4_bounds u2
  rw [hv1] at hc1
  rw [hv2] at hc2
  rw [e1, e2, e3, e4]
  have ha : (y1 - 1) / 4 ≤ (y2 - 1) / 4 := Nat.div_le_div_right (by omega)
  omega

theorem yearDays_succ (y : Nat) (hy : 1 ≤ y) :
    yearDays (y + 1) = yearDays y + 365 + (if isLeap y then 1 else 0) := by
  unfold yearDays
  have hl := leapCount_succ y hy
  have hy1 : y + 1 - 1 = y := by omega
  rw [hy1]
  have hpq : y / 100 ≤ y / 4 := Nat.div_le_div_left (by omega) (by omega)
  have hab : (y - 1) / 100 ≤ (y - 1) / 4 := Nat.div_le_div_left (by omega) (by omega)
  set p := y / 4
  set q := y / 100
  set r := y / 400
  set a := (y - 1) / 4
  set b := (y - 1) / 100
  set c := (y - 1) / 400
  set bit := (if isLeap y then 1 else 0)
  omega

/-- In-month day offsets stay below the year length. -/
theorem daysBeforeMonth_day_le (b : Bool) (m day : Nat) (h1 : 1 ≤ m) (h2 : m ≤ 12)
    (h3 : day ≤ dimB b m) :
    daysBeforeMonth b m + day ≤ 365 + (if b then 1 else 0) := by
  interval_cases m <;> cases b <;>
    simp [daysBeforeMonth, dimB] at h3 ⊢ <;> omega

/-- Month offsets are monotone: a full earlier month fits before a later month. -/
theorem daysBeforeMonth_mono :
    ∀ b : Bool, ∀ m2, m2 < 13 → ∀ m1, m1 < m2 → 1 ≤ m1 →
      daysBeforeMonth b m1 + dimB b m1 ≤ daysBeforeMonth b m2 := by
  decide

/-- Strict date order implies strictly smaller day count. -/
theorem toDays_lt_of_lt {d1 d2 : Date} (h : Date.lt d1 d2) : toDays d1 < toDays d2 := by
  obtain ⟨y1, m1, dd1, hv1⟩ := d1
  obtain ⟨y2, m2, dd2, hv2⟩ := d2
  obtain ⟨hy1, hy1b, hm11, hm12, hdd11, hdd12⟩ := hv1
  obtain ⟨hy2, hy2b, hm21, hm22, hdd21, hdd22⟩ := hv2
  unfold daysInMonth at hdd12 hdd22
  unfold Date.lt at h
  dsimp only at *
  rw [toDays_eq, toDays_eq]
  dsimp only
  rcases h with hyy | ⟨hyy, hmm⟩
  · have hub : daysBeforeMonth (isLeap y1) m1 + dd1 ≤ 365 + (if isLeap y1 then 1 else 0) :=
      daysBeforeMonth_day_le (isLeap y1) m1 dd1 hm11 hm12 hdd12
    have hsucc := yearDays_succ y1 hy1
    have hmono : yearDays (y1 + 1) ≤ yearDays y2 := yearDays_mono (by omega)
    have hlb : 1 ≤ daysBeforeMonth (isLeap y2) m2 + dd2 := by omega
    omega
  · subst hyy
    rcases hmm with hmlt | ⟨hmeq, hdlt⟩
    · have hmono := daysBeforeMonth_mono (isLeap y1) m2 (by omega) m1 hmlt hm11
      omega
    · subst hmeq
      omega

theorem Date.lt_of_not_le {d1 d2 : Date} (h : ¬ Date.le d1 d2) : Date.lt d2 d1 := by
  unfold Date.le at h
  unfold Date.lt
  omega

theorem Date.le_of_lt {d1 d2 : Date} (h : Date.lt d1 d2) : Date.le d1 d2 := by
  unfold Date.lt at h
  unfold Date.le
  omega

theorem Date.le_refl (d : Date) : Date.le d d := by
  unfold Date.le
  omega

theorem toDays_le_of_le {d1 d2 : Date} (h : Date.le d1 d2) : toDays d1 ≤ toDays d2 := by
  by_cases heq : d1 = d2
  · subst heq; exact Nat.le_refl _
  · have hlt : Date.lt d1 d2 := by
      unfold Date.le at h
      unfold Date.lt
      have : ¬ (d1.year = d2.year ∧ d1.month = d2.month ∧ d1.day = d2.day) := by
        intro hc
        exact heq (Date.ext_nums hc.1 hc.2.1 hc.2.2)
      omega
    exact Nat.le_of_lt (toDays_lt_of_lt hlt)

theorem Date.le_of_toDays_le {d1 d2 : Date} (h : toDays d1 ≤ toDays d2) : Date.le d1 d2 := by
  by_contra hc
  have := toDays_lt_of_lt (Date.lt_of_not_le hc)
  omega

theorem Date.eq_of_toDays_eq {d1 d2 : Date} (h : toDays d1 = toDays d2) : d1 = d2 := by
  by_contra hc
  have hne : ¬ (d1.year = d2.year ∧ d1.month = d2.month ∧ d1.day = d2.day) := by
    intro hcc
    exact hc (Date.ext_nums hcc.1 hcc.2.1 hcc.2.2)
  have : Date.lt d1 d2 ∨ Date.lt d2 d1 := by
    unfold Date.lt
    omega
  rcases this with h1 | h1 <;> have := toDays_lt_of_lt h1 <;> omega

/-! ### String helpers (parsing and formatting, mirroring `strptime`/`strftime`) -/

/-- Split a character list on a separator character (like `str.split(sep)`). -/
def splitOnChar (c : Char) : List Char → List (List Char)
  | [] => [[]]
  | a :: rest =>
    let r := splitOnChar c rest
    if a = c then [] :: r
    else
      match r with
      | [] => [[a]]
      | g :: gs => (a :: g) :: gs

/-- Interpret a nonempty all-digit character list as a natural number. -/
def digitsToNat (l : List Char) : Option Nat :=
  if l ≠ [] ∧ l.all Char.isDigit = true then
    some (l.foldl (fun n ch => 10 * n + (ch.toNat - 48)) 0)
  else none

/-- Parse `"%Y-%m-%d"` date components, mirroring Python `datetime.strptime`:
four-digit year, one- or two-digit month and day, all validated as a real
calendar date. -/
def parseDateChars (l : List Char) : Option Date :=
  match splitOnChar '-' l with
  | [ys, ms, ds] =>
    match digitsToNat ys, digitsToNat ms, digitsToNat ds with
    | some y, some m, some dd =>
      if ys.length = 4 ∧ ms.length ≤ 2 ∧ ds.length ≤ 2 then
        if hval : 1 ≤ y ∧ y ≤ 9999 ∧ 1 ≤ m ∧ m ≤ 12 ∧ 1 ≤ dd ∧ dd ≤ daysInMonth y m then
          some ⟨y, m, dd, hval⟩
        else none
      else none
    | _, _, _ => none
  | _ => none

/-- Python `datetime.strptime(s, "%Y-%m-%d")`, reduced to its date value. -/
def parseDate (s : String) : Option Date := parseDateChars s.data

/-- Parse `"%H:%M:%S"` time-of-day components. -/
def parseTimeChars (l : List Char) : Option (Nat × Nat × Nat) :=
  match splitOnChar ':' l with
  | [hs, ms, ss] =>
    match digitsToNat hs, digitsToNat ms, digitsToNat ss with
    | some hh, some mm, some ss2 =>
      if hs.length ≤ 2 ∧ ms.length ≤ 2 ∧ ss.length ≤ 2
          ∧ hh ≤ 23 ∧ mm ≤ 59 ∧ ss2 ≤ 61 then
        some (hh, mm, ss2)
      else none
    | _, _, _ => none
  | _ => none

/-- Python `datetime.strptime(s, "%Y-%m-%d %H:%M:%S")`. -/
def parseDateTime (s : String) : Option (Date × Nat × Nat × Nat) :=
  match splitOnChar ' ' s.data with
  | [dpart, tpart] =>
    match parseDateChars dpart, parseTimeChars tpart with
    | some d, some t => some (d, t)
    | _, _ => none
  | _ => none

/-- Decimal digit character for a value below 10. -/
def digitChar (n : Nat) : Char := Char.ofNat (48 + n)

/-- Decimal digits of a natural number, most significant first. -/
def natToCharsAux : Nat → Nat → List Char
  | 0, _ => []
  | fuel + 1, n =>
    if n < 10 then [digitChar n]
    else natToCharsAux fuel (n / 10) ++ [digitChar (n % 10)]

/-- Decimal representation of a natural number as characters. -/
def natToChars (n : Nat) : List Char := natToCharsAux (n + 1) n

/-- Zero-pad a digit list on the left to width `w`. -/
def padZeros (w : Nat) (l : List Char) : List Char :=
  List.replicate (w - l.length) '0' ++ l

/-- Python `date.strftime("%Y-%m-%d")`. -/
def formatDateDash (d : Date) : String :=
  String.mk (padZeros 4 (natToChars d.year) ++ ['-']
    ++ padZeros 2 (natToChars d.month) ++ ['-'] ++ padZeros 2 (natToChars d.day))

/-- Python `date.strftime("%Y%m%d")` (the provider's 8-digit date parameter). -/
def formatDate8 (d : Date) : String :=
  String.mk (padZeros 4 (natToChars d.year)
    ++ padZeros 2 (natToChars d.month) ++ padZeros 2 (natToChars d.day))

/-- English month name, as produced by `%B`. -/
def monthName (m : Nat) : String :=
  match m with
  | 1 => "January"
  | 2 => "February"
  | 3 => "March"
  | 4 => "April"
  | 5 => "May"
  | 6 => "June"
  | 7 => "July"
  | 8 => "August"
  | 9 => "September"
  | 10 => "October"
  | 11 => "November"
  | 12 => "December"
  | _ => ""

/-- Python `datetime.strftime("%B %d, %Y")` (the summary's friendly date). -/
def formatFriendly (d : Date) : String :=
  String.mk ((monthName d.month).data ++ [' ']
    ++ padZeros 2 (natToChars d.day) ++ [',', ' '] ++ padZeros 4 (natToChars d.year))

/-- Lexicographic (byte-wise) order on character lists, as SQLite compares
its TEXT columns. -/
def leChars : List Char → List Char → Bool
  | [], _ => true
  | _ :: _, [] => false
  | a :: as, b :: bs =>
    if a.toNat < b.toNat then true
    else if b.toNat < a.toNat then false
    else leChars as bs

/-- Non-strict text comparison used by the `WHERE obs_time_local >= ?` bound. -/
def strLe (a b : String) : Bool := leChars a.data b.data

/-- Strict lexicographic order on character lists. -/
def ltChars : List Char → List Char → Bool
  | [], [] => false
  | [], _ :: _ => true
  | _ :: _, [] => false
  | a :: as, b :: bs =>
    if a.toNat < b.toNat then true
    else if b.toNat < a.toNat then false
    else ltChars as bs

/-- Strict text comparison used by the `WHERE obs_time_local < ?` bound. -/
def strLt (a b : String) : Bool := ltChars a.data b.data

theorem leChars_trans :
    ∀ a b c, leChars a b = true → leChars b c = true → leChars a c = true := by
  intro a
  induction a with
  | nil => intro b c _ _; rfl
  | cons x xs ih =>
    intro b c hab hbc
    match b, c with
    | [], _ => exact absurd hab (by simp [leChars])
    | _ :: _, [] => exact absurd hbc (by simp [leChars])
    | y :: ys, z :: zs =>
      simp only [leChars] at hab hbc ⊢
      rcases Nat.lt_trichotomy x.toNat y.toNat with h1 | h1 | h1
      · rcases Nat.lt_trichotomy y.toNat z.toNat with h2 | h2 | h2
        · rw [if_pos (by omega)]
        · rw [if_pos (by omega)]
        · rw [if_neg (by omega), if_pos (by omega)] at hbc
          exact absurd hbc (by simp)
      · rw [if_neg (by omega), if_neg (by omega)] at hab
        rcases Nat.lt_trichotomy y.toNat z.toNat with h2 | h2 | h2
        · rw [if_pos (by omega)]
        · rw [if_neg (by omega), if_neg (by omega)] at hbc
          rw [if_neg (by omega), if_neg (by omega)]
          exact ih ys zs hab hbc
        · rw [if_neg (by omega), if_pos (by omega)] at hbc
          exact absurd hbc (by simp)
      · rw [if_neg (by omega), if_pos (by omega)] at hab
        exact absurd hab (by simp)

theorem leChars_total : ∀ a b, (leChars a b || leChars b a) = true := by
  intro a
  induction a with
  | nil => intro b; simp [leChars]
  | cons x xs ih =>
    intro b
    match b with
    | [] => simp [leChars]
    | y :: ys =>
      simp only [leChars]
      rcases Nat.lt_trichotomy x.toNat y.toNat with h1 | h1 | h1
      · rw [if_pos h1]
        simp
      · rw [if_neg (by omega), if_neg (by omega), if_neg (by omega), if_neg (by omega)]
        simpa using ih ys
      · rw [if_neg (by omega), if_pos (by omega), if_pos (by omega)]
        simp

/-! ### Data model (`RawObservation` and the `weather_data` table) -/

/-- The `imperial` sub-object of a provider hourly observation.  Any field
may be absent; `obs.get("imperial", {}).get(key, None)` yields `None` for a
missing field, modelled as `Option.none`. -/
structure ImperialHourly where
  tempHigh : Option ℚ
  tempLow : Option ℚ
  tempAvg : Option ℚ
  windspeedHigh : Option ℚ
  windspeedLow : Option ℚ
  windspeedAvg : Option ℚ
  windchillHigh : Option ℚ
  windchillLow : Option ℚ
  windchillAvg : Option ℚ
  precipRate : Option ℚ
  precipTotal : Option ℚ
  deriving DecidableEq, Repr

/-- A raw provider observation as consumed by `insert_observations`.
`stationID` and `obsTimeLocal` are accessed with mandatory indexing
(`obs["stationID"]`), so a valid observation always carries them. -/
structure RawObservation where
  stationID : String
  obsTimeLocal : String
  humidityAvg : Option ℚ
  imperial : ImperialHourly
  deriving DecidableEq, Repr

/-- One row of the `weather_data` table (the `id` autoincrement column is
represented by list position). -/
structure Row where
  station_id : String
  obs_time_local : String
  temperature_high : Option ℚ
  temperature_low : Option ℚ
  temperature_average : Option ℚ
  humidity : Option ℚ
  wind_speed_high : Option ℚ
  wind_speed_low : Option ℚ
  wind_speed_average : Option ℚ
  windchill_high : Option ℚ
  windchill_low : Option ℚ
  windchill_average : Option ℚ
  precip_rate : Option ℚ
  precip_total : Option ℚ
  deriving DecidableEq, Repr

/-- The VALUES tuple of the INSERT statement in `WeatherDB.insert_observations`. -/
def rowOf (obs : RawObservation) : Row where
  station_id := obs.stationID
  obs_time_local := obs.obsTimeLocal
  temperature_high := obs.imperial.tempHigh
  temperature_low := obs.imperial.tempLow
  temperature_average := obs.imperial.tempAvg
  humidity := obs.humidityAvg
  wind_speed_high := obs.imperial.windspeedHigh
  wind_speed_low := obs.imperial.windspeedLow
  wind_speed_average := obs.imperial.windspeedAvg
  windchill_high := obs.imperial.windchillHigh
  windchill_low := obs.imperial.windchillLow
  windchill_average := obs.imperial.windchillAvg
  precip_rate := obs.imperial.precipRate
  precip_total := obs.imperial.precipTotal

/-- Whether a row with the given `obs_time_local` already exists: the table's
UNIQUE constraint on the `obs_time_local` column. -/
def timeExists (store : List Row) (t : String) : Bool :=
  store.any (fun r => r.obs_time_local == t)

/-- The model of `WeatherDB.insert_observations`: attempt a unique-keyed
insert per item; an `sqlite3.IntegrityError` (duplicate `obs_time_local`)
skips that single item and the loop continues with the remainder. -/
def insert_observations (store : List Row) : List RawObservation → List Row
  | [] => store
  | obs :: rest =>
    if timeExists store obs.obsTimeLocal then
      insert_observations store rest
    else
      insert_observations (store ++ [rowOf obs]) rest

/-- First row stored under a given `obs_time_local` key. -/
def findRow (store : List Row) (t : String) : Option Row :=
  store.find? (fun r => r.obs_time_local == t)

/-! ### Query model (`WeatherDB.query_by_date`) -/

/-- The `imperial` sub-object of the dictionaries rebuilt by
`query_by_date` (note the `windspeedAverage` / `windchillAverage` /
`precipAverage` key names, and that `precipAverage` is filled from the
`precip_total` column). -/
structure ImperialQueried where
  tempHigh : Option ℚ
  tempLow : Option ℚ
  tempAvg : Option ℚ
  humidity : Option ℚ
  windspeedHigh : Option ℚ
  windspeedLow : Option ℚ
  windspeedAverage : Option ℚ
  windchillHigh : Option ℚ
  windchillLow : Option ℚ
  windchillAverage : Option ℚ
  precipRate : Option ℚ
  precipAverage : Option ℚ
  deriving DecidableEq, Repr

/-- An observation dictionary as returned by `query_by_date` and consumed
by `compile_daily_data`. -/
structure QueriedObservation where
  stationID : String
  obsTimeLocal : String
  imperial : ImperialQueried
  deriving DecidableEq, Repr

/-- The dictionary `query_by_date` builds from a fetched row. -/
def rowToObservation (r : Row) : QueriedObservation where
  stationID := r.station_id
  obsTimeLocal := r.obs_time_local
  imperial :=
    { tempHigh := r.temperature_high
      tempLow := r.temperature_low
      tempAvg := r.temperature_average
      humidity := r.humidity
      windspeedHigh := r.wind_speed_high
      windspeedLow := r.wind_speed_low
      windspeedAverage := r.wind_speed_average
      windchillHigh := r.windchill_high
      windchillLow := r.windchill_low
      windchillAverage := r.windchill_average
      precipRate := r.precip_rate
      precipAverage := r.precip_total }

/-- Row-ordering predicate of `ORDER BY obs_time_local ASC`. -/
def rowLe (r1 r2 : Row) : Bool := strLe r1.obs_time_local r2.obs_time_local

/-- The model of `WeatherDB.query_by_date`: `strptime` the date (raising
`ValueError` on malformed input), then select the rows with
`start_ts <= obs_time_local < end_ts`, ordered ascending, rebuilt as
observation dictionaries. -/
def query_by_date (date_str : String) (store : List Row) :
    Except PyExc (List QueriedObservation) :=
  match parseDate date_str with
  | none => Except.error PyExc.valueError
  | some dt =>
    match nextDay dt with
    | Except.error e => Except.error e
    | Except.ok dt1 =>
      let start_ts := formatDateDash dt ++ " 00:00:00"
      let end_ts := formatDateDash dt1 ++ " 00:00:00"
      let rows := (store.filter
        (fun r => strLe start_ts r.obs_time_local
          && strLt r.obs_time_local end_ts)).mergeSort rowLe
      Except.ok (rows.map rowToObservation)

/-! ### Aggregation model (`ClimeCapsule.compile_daily_data`) -/

/-- The pydantic `DailyObservation` model: thirteen required fields. -/
structure DailyObservation where
  station_id : String
  obs_time_local : String
  friendly_date : String
  temp_high : ℚ
  temp_low : ℚ
  temp_avg : ℚ
  windspeed_high : ℚ
  windspeed_low : ℚ
  windspeed_avg : ℚ
  wind_chill_high : ℚ
  wind_chill_low : ℚ
  wind_chill_avg : ℚ
  precip_rate : ℚ
  precip_avg : ℚ
  deriving DecidableEq, Repr

/-- Require a pydantic field value: a missing (absent) required field makes
model construction raise `pydantic.ValidationError`. -/
def reqField {α : Type} (o : Option α) : Except PyExc α :=
  match o with
  | some v => Except.ok v
  | none => Except.error PyExc.validationError

/-- Constructing a `DailyObservation`, validating that every required field
was supplied.  `DailyObservation()` with no arguments supplies none of them. -/
def mkDailyObservation (sid otl fd : Option String)
    (th tl ta wh wl wa ch cl ca pr pa : Option ℚ) : Except PyExc DailyObservation := do
  let sid' ← reqField sid
  let otl' ← reqField otl
  let fd' ← reqField fd
  let th' ← reqField th
  let tl' ← reqField tl
  let ta' ← reqField ta
  let wh' ← reqField wh
  let wl' ← reqField wl
  let wa' ← reqField wa
  let ch' ← reqField ch
  let cl' ← reqField cl
  let ca' ← reqField ca
  let pr' ← reqField pr
  let pa' ← reqField pa
  Except.ok
    { station_id := sid'
      obs_time_local := otl'
      friendly_date := fd'
      temp_high := th'
      temp_low := tl'
      temp_avg := ta'
      windspeed_high := wh'
      windspeed_low := wl'
      windspeed_avg := wa'
      wind_chill_high := ch'
      wind_chill_low := cl'
      wind_chill_avg := ca'
      precip_rate := pr'
      precip_avg := pa' }

/-- Python `round` at two decimal places on an exact value: round half to
even (banker's rounding). -/
def pyRound2 (q : ℚ) : ℚ :=
  let x : ℚ := 100 * q
  let f : ℤ := Int.floor x
  let r : ℚ := x - f
  let n : ℤ :=
    if r < 1 / 2 then f
    else if 1 / 2 < r then f + 1
    else if 2 ∣ f then f else f + 1
  (n : ℚ) / 100

/-- Reading a value out of an observation dictionary for a comparison or an
addition: a SQL NULL comes back as Python `None`, and `None > x` /
`acc + None` raise `TypeError`. -/
def useField (o : Option ℚ) : Except PyExc ℚ :=
  match o with
  | some v => Except.ok v
  | none => Except.error PyExc.typeError

/-- The running accumulators of `compile_daily_data`, with their initial
values (`high` accumulators start at 0, `low` accumulators at 150). -/
structure CompileAcc where
  high_temp : ℚ := 0
  low_temp : ℚ := 150
  total_avg_temp : ℚ := 0
  high_windspeed : ℚ := 0
  low_windspeed : ℚ := 150
  total_avg_windspeed : ℚ := 0
  high_wind_chill : ℚ := 0
  low_wind_chill : ℚ := 150
  total_avg_windchill : ℚ := 0
  high_precip_rate : ℚ := 0
  precip_rate_avg : ℚ := 0
  observation_count : Nat := 0
  deriving DecidableEq, Repr

/-- One iteration of the `for obs in observations` loop.  Each Python local
(`high_temp`, `low_temp`, …) is carried in `acc`; every field read raises
`TypeError` when the stored value is NULL. -/
def compileStep (acc : CompileAcc) (obs : QueriedObservation) : Except PyExc CompileAcc := do
  let tempHigh ← useField obs.imperial.tempHigh
  let high_temp := if tempHigh > acc.high_temp then tempHigh else acc.high_temp
  let tempLow ← useField obs.imperial.tempLow
  let low_temp := if tempLow < acc.low_temp then tempLow else acc.low_temp
  let tempAvg ← useField obs.imperial.tempAvg
  let total_avg_temp := acc.total_avg_temp + tempAvg
  let windspeedHigh ← useField obs.imperial.windspeedHigh
  let high_windspeed := if windspeedHigh > acc.high_windspeed then
    windspeedHigh else acc.high_windspeed
  let windspeedLow ← useField obs.imperial.windspeedLow
  let low_windspeed := if windspeedLow < acc.low_windspeed then
    windspeedLow else acc.low_windspeed
  let windspeedAverage ← useField obs.imperial.windspeedAverage
  let total_avg_windspeed := acc.total_avg_windspeed + windspeedAverage
  let windchillHigh ← useField obs.imperial.windchillHigh
  let high_wind_chill := if windchillHigh > acc.high_wind_chill then
    windchillHigh else acc.high_wind_chill
  let windchillLow ← useField obs.imperial.windchillLow
  let low_wind_chill := if windchillLow < acc.low_wind_chill then
    windchillLow else acc.low_wind_chill
  let windchillAverage ← useField obs.imperial.windchillAverage
  let total_avg_windchill := acc.total_avg_windchill + windchillAverage
  let precipRate ← useField obs.imperial.precipRate
  let high_precip_rate := if precipRate > acc.high_precip_rate then
    precipRate else acc.high_precip_rate
  let precipAverage ← useField obs.imperial.precipAverage
  let precip_rate_avg := acc.precip_rate_avg + precipAverage
  Except.ok
    { high_temp := high_temp
      low_temp := low_temp
      total_avg_temp := total_avg_temp
      high_windspeed := high_windspeed
      low_windspeed := low_windspeed
      total_avg_windspeed := total_avg_windspeed
      high_wind_chill := high_wind_chill
      low_wind_chill := low_wind_chill
      total_avg_windchill := total_avg_windchill
      high_precip_rate := high_precip_rate
      precip_rate_avg := precip_rate_avg
      observation_count := acc.observation_count + 1 }

/-- The whole observation loop of `compile_daily_data`. -/
def compileLoop (acc : CompileAcc) : List QueriedObservation → Except PyExc CompileAcc
  | [] => Except.ok acc
  | obs :: rest => do
    let acc' ← compileStep acc obs
    compileLoop acc' rest

/-- The model of `ClimeCapsule.compile_daily_data`.  On a non-empty list it
parses the last observation's timestamp, reads the first observation's
station id, folds the loop and builds the summary; on an empty list it
evaluates `DailyObservation()`. -/
def compile_daily_data (observations : List QueriedObservation) :
    Except PyExc DailyObservation :=
  match observations with
  | [] =>
    mkDailyObservation none none none
      none none none none none none none none none none none
  | o0 :: rest =>
    match parseDateTime ((o0 :: rest).getLast (by simp)).obsTimeLocal with
    | none => Except.error PyExc.valueError
    | some (dt, _) =>
      let date_str := formatDateDash dt
      let station_id := o0.stationID
      match compileLoop {} (o0 :: rest) with
      | Except.error e => Except.error e
      | Except.ok acc =>
        mkDailyObservation (some station_id) (some date_str) (some (formatFriendly dt))
          (some acc.high_temp) (some acc.low_temp)
          (some (pyRound2 (acc.total_avg_temp / (acc.observation_count : ℚ))))
          (some acc.high_windspeed) (some acc.low_windspeed)
          (some (pyRound2 (acc.total_avg_windspeed / (acc.observation_count : ℚ))))
          (some acc.high_wind_chill) (some acc.low_wind_chill)
          (some (pyRound2 (acc.total_avg_windchill / (acc.observation_count : ℚ))))
          (some acc.high_precip_rate)
          (some (pyRound2 (acc.precip_rate_avg / (acc.observation_count : ℚ))))

/-! ### Fetch model (`ClimeCapsule.make_api_call` and its decorators) -/

/-- The observable outcome of one `requests.get`: a raised transport
exception, or a response with an HTTP status and a decoded
`observations` array. -/
structure HttpResponse where
  status : Nat
  observations : List RawObservation
  deriving Repr

/-- Python `resp.raise_for_status()`: raises `requests.HTTPError` for any
4xx/5xx status — including a provider-side 429 rate-limit rejection. -/
def raise_for_status (resp : HttpResponse) : Except PyExc Unit :=
  if 400 ≤ resp.status then Except.error (PyExc.httpError resp.status) else Except.ok ()

/-- The body of `make_api_call` as guarded by the innermost `@limits`
decorator.  `limiterRejects i` abstracts whether the client-side
30-calls-per-60-seconds window is exhausted at the i-th attempt (a
real-time property); when it is, `ratelimit` raises `RateLimitException`
without touching the network.  Otherwise the request itself runs:
`transport i` gives the i-th network outcome. -/
def limitedAttempt (limiterRejects : Nat → Bool)
    (transport : Nat → Except PyExc HttpResponse) (i : Nat) :
    Except PyExc (List RawObservation) :=
  if limiterRejects i then Except.error PyExc.rateLimitException
  else
    match transport i with
    | Except.error e => Except.error e
    | Except.ok resp =>
      match raise_for_status resp with
      | Except.error e => Except.error e
      | Except.ok _ => Except.ok resp.observations

/-- The `@on_exception(expo, RateLimitException, max_tries=3)` decorator
from the `backoff` library: re-run the call while it raises
`RateLimitException`, up to `triesLeft` attempts in total, backing off
between attempts; any other outcome (success or a different exception)
is returned at once.  The result is paired with the number of attempts
actually made. -/
def onExceptionGo {α : Type} (attempt : Nat → Except PyExc α) :
    Nat → Nat → Except PyExc α × Nat
  | 0, i => (Except.error PyExc.rateLimitException, i)
  | 1, i => (attempt i, i + 1)
  | triesLeft + 2, i =>
    match attempt i with
    | Except.error PyExc.rateLimitException => onExceptionGo attempt (triesLeft + 1) (i + 1)
    | r => (r, i + 1)

/-- The model of `make_api_call` up to the `@on_exception` layer: the
decorated body run with `max_tries=3`, reporting the result and how many
attempts were consumed.  (The outermost `@sleep_and_retry` decorator only
re-enters this function after a timed sleep when the client-side
`RateLimitException` still escapes; it is a real-time behaviour and is
not modelled.) -/
def make_api_call (limiterRejects : Nat → Bool)
    (transport : Nat → Except PyExc HttpResponse) :
    Except PyExc (List RawObservation) × Nat :=
  onExceptionGo (limitedAttempt limiterRejects transport) 3 0

/-! ### Backfill model (`fetch_historical_hourly_data` and `init_db`) -/

/-- The `while start_date <= end_date` loop of
`fetch_historical_hourly_data`: one provider call per day, ascending,
each carrying the day's 8-digit date string; results are accumulated in
call order.  Returns the issued date strings (the call trace) together
with the accumulated observations. -/
def fetchLoop (fetch : String → List RawObservation) (start_date end_date : Date) :
    List String × Except PyExc (List RawObservation) :=
  if h : Date.le start_date end_date then
    let ds := formatDate8 start_date
    let data := fetch ds
    match hnx : nextDay start_date with
    | Except.error e => ([ds], Except.error e)
    | Except.ok start_date' =>
      let rest := fetchLoop fetch start_date' end_date
      (ds :: rest.1,
        match rest.2 with
        | Except.error e => Except.error e
        | Except.ok obs => Except.ok (data ++ obs))
  else ([], Except.ok [])
termination_by toDays end_date + 1 - toDays start_date
decreasing_by
  have h1 := toDays_nextDay hnx
  have h2 := toDays_le_of_le h
  omega

/-- The day walk of the loop above, as a list of visited dates. -/
def walkDates (start_date end_date : Date) : List Date :=
  if h : Date.le start_date end_date then
    start_date ::
      (match hnx : nextDay start_date with
        | Except.error _ => []
        | Except.ok start_date' => walkDates start_date' end_date)
  else []
termination_by toDays end_date + 1 - toDays start_date
decreasing_by
  have h1 := toDays_nextDay hnx
  have h2 := toDays_le_of_le h
  omega

/-- The model of `ClimeCapsule.fetch_historical_hourly_data`: `strptime`
both bounds (a malformed bound raises `ValueError` before any call is
made; a `None` end bound defaults to the start), then run the day loop.
The first component is the trace of issued provider calls; the second is
the returned observation list, or the exception the loop raises. -/
def fetch_historical_hourly_data (fetch : String → List RawObservation)
    (start_date : String) (end_date : Option String) :
    List String × Except PyExc (List RawObservation) :=
  match parseDate start_date with
  | none => ([], Except.error PyExc.valueError)
  | some sd =>
    match end_date with
    | none => fetchLoop fetch sd sd
    | some es =>
      match parseDate es with
      | none => ([], Except.error PyExc.valueError)
      | some ed => fetchLoop fetch sd ed

/-- The model of `ClimeCapsule.init_db`: when the database file does not
exist, fetch the whole historical range and pass the accumulated list to
`insert_observations` once; an exception escaping the fetch loop aborts
`init_db` before any insert.  The result is the list of insert-call
payloads that were issued. -/
def init_db (fetch : String → List RawObservation) (dbExists : Bool)
    (earliest today : String) : Except PyExc (List (List RawObservation)) :=
  if dbExists then Except.ok []
  else
    match (fetch_historical_hourly_data fetch earliest (some today)).2 with
    | Except.error e => Except.error e
    | Except.ok observations => Except.ok [observations]

/-! ### Store lemmas -/

theorem mem_insert_observations {r : Row} :
    ∀ (batch : List RawObservation) (store : List Row), r ∈ store →
      r ∈ insert_observations store batch := by
  intro batch
  induction batch with
  | nil => intro store h; exact h
  | cons obs rest ih =>
    intro store h
    unfold insert_observations
    by_cases hex : timeExists store obs.obsTimeLocal
    · rw [if_pos hex]
      exact ih store h
    · rw [if_neg hex]
      exact ih (store ++ [rowOf obs]) (List.mem_append_left _ h)

theorem time_present_after :
    ∀ (batch : List RawObservation) (store : List Row), ∀ o ∈ batch,
      ∃ r ∈ insert_observations store batch, r.obs_time_local = o.obsTimeLocal := by
  intro batch
  induction batch with
  | nil => intro store o h; exact absurd h (List.not_mem_nil o)
  | cons obs rest ih =>
    intro store o ho
    unfold insert_observations
    rcases List.mem_cons.mp ho with rfl | hmem
    · by_cases hex : timeExists store o.obsTimeLocal
      · rw [if_pos hex]
        obtain ⟨r, hr, hrt⟩ := List.any_eq_true.mp hex
        exact ⟨r, mem_insert_observations rest store hr, by simpa using hrt⟩
      · rw [if_neg hex]
        refine ⟨rowOf o, mem_insert_observations rest _ ?_, rfl⟩
        exact List.mem_append_right _ (List.mem_singleton.mpr rfl)
    · by_cases hex : timeExists store obs.obsTimeLocal
      · rw [if_pos hex]
        exact ih store o hmem
      · rw [if_neg hex]
        exact ih (store ++ [rowOf obs]) o hmem

theorem insert_observations_skip_all :
    ∀ (batch : List RawObservation) (store : List Row),
      (∀ o ∈ batch, timeExists store o.obsTimeLocal = true) →
      insert_observations store batch = store := by
  intro batch
  induction batch with
  | nil => intro store _; rfl
  | cons obs rest ih =>
    intro store hall
    unfold insert_observations
    rw [if_pos (hall obs (List.mem_cons_self obs rest))]
    exact ih store (fun o ho => hall o (List.mem_cons_of_mem obs ho))

theorem findRow_insert_observations {t : String} {r : Row} :
    ∀ (batch : List RawObservation) (store : List Row), findRow store t = some r →
      findRow (insert_observations store batch) t = some r := by
  intro batch
  induction batch with
  | nil => intro store h; exact h
  | cons obs rest ih =>
    intro store h
    unfold insert_observations
    by_cases hex : timeExists store obs.obsTimeLocal
    · rw [if_pos hex]
      exact ih store h
    · rw [if_neg hex]
      refine ih (store ++ [rowOf obs]) ?_
      unfold findRow at h ⊢
      rw [List.find?_append, h]
      rfl

/-! ### Claim theorems -/

/-- C1.  The claim says `compile_daily_data([])` returns a summary with an
absent station id and zero/empty numeric fields and never raises.  The code
instead evaluates `DailyObservation()`, a pydantic model with thirteen
required, default-less fields, which raises `ValidationError`.  This theorem
evaluates the model at the failing input. -/
theorem compile_daily_data_nil_raises :
    compile_daily_data [] = Except.error PyExc.validationError := rfl

/-- C2.  Inserting a batch a second time leaves the stored row set
unchanged (idempotence); every item of the batch has its key present after
the insert (a collision skips only that item, the rest still lands, and the
batch never fails); and a row already stored under a key is never
overwritten by later inserts. -/
theorem insert_observations_idempotent (store : List Row) (batch : List RawObservation) :
    insert_observations (insert_observations store batch) batch
        = insert_observations store batch
    ∧ (∀ o ∈ batch, ∃ r ∈ insert_observations store batch,
        r.obs_time_local = o.obsTimeLocal)
    ∧ (∀ t r, findRow store t = some r →
        findRow (insert_observations store batch) t = some r) := by
  refine ⟨?_, time_present_after batch store, fun t r h => findRow_insert_observations batch store h⟩
  apply insert_observations_skip_all
  intro o ho
  obtain ⟨r, hr, hrt⟩ := time_present_after batch store o ho
  exact List.any_eq_true.mpr ⟨r, hr, by simpa using hrt⟩

/-- Fully populated imperial sub-object used by concrete witnesses. -/
def sampleImperial (v : ℚ) : ImperialHourly where
  tempHigh := some v
  tempLow := some v
  tempAvg := some v
  windspeedHigh := some v
  windspeedLow := some v
  windspeedAvg := some v
  windchillHigh := some v
  windchillLow := some v
  windchillAvg := some v
  precipRate := some v
  precipTotal := some v

/-- Concrete raw observation used by witnesses. -/
def sampleRaw (t : String) (v : ℚ) : RawObservation where
  stationID := "KCOLSTN1"
  obsTimeLocal := t
  humidityAvg := some 50
  imperial := sampleImperial v

/-- Witness batch: two distinct hours, the first colliding with the store. -/
def sampleBatch : List RawObservation :=
  [sampleRaw "2024-01-01 10:00:00" 10, sampleRaw "2024-01-01 11:00:00" 12]

/-- Witness store: already holds the 10:00 row (with different values). -/
def sampleStore : List Row := [rowOf (sampleRaw "2024-01-01 10:00:00" 99)]

/-- C2 witness: the theorem applied at a concrete store and batch. -/
theorem insert_observations_idempotent_witness :
    insert_observations (insert_observations sampleStore sampleBatch) sampleBatch
        = insert_observations sampleStore sampleBatch
    ∧ (∃ r ∈ insert_observations sampleStore sampleBatch,
        r.obs_time_local = "2024-01-01 11:00:00")
    ∧ findRow (insert_observations sampleStore sampleBatch) "2024-01-01 10:00:00"
        = some (rowOf (sampleRaw "2024-01-01 10:00:00" 99)) := by
  obtain ⟨h1, h2, h3⟩ := insert_observations_idempotent sampleStore sampleBatch
  refine ⟨h1, ?_, ?_⟩
  · exact h2 (sampleRaw "2024-01-01 11:00:00" 12) (by decide)
  · exact h3 "2024-01-01 10:00:00" (rowOf (sampleRaw "2024-01-01 10:00:00" 99)) (by decide)

theorem rowLe_trans (a b c : Row) (h1 : rowLe a b = true) (h2 : rowLe b c = true) :
    rowLe a c = true :=
  leChars_trans _ _ _ h1 h2

theorem rowLe_total (a b : Row) : (rowLe a b || rowLe b a) = true :=
  leChars_total _ _

/-- Text form of the half-open day interval `[d 00:00:00, d1 00:00:00)`
used by `query_by_date`, where `d1` is the day after `d`. -/
def inDay (d d1 : Date) (t : String) : Bool :=
  strLe (formatDateDash d ++ " 00:00:00") t
    && strLt t (formatDateDash d1 ++ " 00:00:00")

/-- C3 (amended).  For a well-formed date string whose successor day is
still representable (`d ≠ 9999-12-31`, so the `dt + timedelta(days=1)` end
bound does not raise `OverflowError`), `query_by_date` succeeds, returns
exactly the stored rows whose timestamp falls in
`[d 00:00:00, d+1 00:00:00)` (as rebuilt observation dictionaries), in
ascending timestamp order, and returns the empty list when nothing
matches. -/
theorem query_by_date_correct (ds : String) (d d1 : Date) (store : List Row)
    (h : parseDate ds = some d) (hnx : nextDay d = Except.ok d1) :
    ∃ res, query_by_date ds store = Except.ok res
      ∧ res.Perm ((store.filter (fun r => inDay d d1 r.obs_time_local)).map rowToObservation)
      ∧ List.Pairwise (fun a b => strLe a.obsTimeLocal b.obsTimeLocal = true) res
      ∧ ((∀ r ∈ store, inDay d d1 r.obs_time_local = false) → res = []) := by
  refine ⟨((store.filter (fun r => inDay d d1 r.obs_time_local)).mergeSort rowLe).map
    rowToObservation, ?_, ?_, ?_, ?_⟩
  · unfold query_by_date
    rw [h]
    dsimp only
    rw [hnx]
    rfl
  · exact List.Perm.map _ (List.mergeSort_perm _ _)
  · refine List.Pairwise.map _ (fun a b hab => ?_)
      (List.sorted_mergeSort rowLe_trans rowLe_total
        (store.filter (fun r => inDay d d1 r.obs_time_local)))
    exact hab
  · intro hnone
    have hfil : store.filter (fun r => inDay d d1 r.obs_time_local) = [] :=
      List.filter_eq_nil_iff.mpr (fun r hr => by simp [hnone r hr])
    rw [hfil]
    have : (List.mergeSort [] rowLe).Perm [] := List.mergeSort_perm [] rowLe
    rw [this.eq_nil]
    rfl

/-- C3 counterexample: `9999-12-31` is a perfectly valid date
(`datetime.strptime` accepts it), yet `query_by_date` raises
`OverflowError` computing the `dt + timedelta(days=1)` end bound — even on
an empty store, where the claim demands the empty list and no error. -/
theorem query_by_date_overflow_counterexample :
    parseDate "9999-12-31" = some maxDate
    ∧ query_by_date "9999-12-31" [] = Except.error PyExc.overflowError := by
  exact ⟨by decide, rfl⟩

/-- Witness store for the query claim: one matching row, one row on the
next day, one earlier row. -/
def sampleQueryStore : List Row :=
  [rowOf (sampleRaw "2024-01-02 03:00:00" 7),
   rowOf (sampleRaw "2024-01-01 22:00:00" 5),
   rowOf (sampleRaw "2024-01-01 04:00:00" 3)]

/-- Concrete dates used by witnesses. -/
def dateJan1 : Date := ⟨2024, 1, 1, by decide⟩

def dateJan2 : Date := ⟨2024, 1, 2, by decide⟩

def dateJan3 : Date := ⟨2024, 1, 3, by decide⟩

def dateJan4 : Date := ⟨2024, 1, 4, by decide⟩

/-- C3 witness: the theorem applied to a concrete store and date string. -/
theorem query_by_date_correct_witness :
    ∃ res, query_by_date "2024-01-01" sampleQueryStore = Except.ok res
      ∧ res.Perm ((sampleQueryStore.filter
          (fun r => inDay dateJan1 dateJan2 r.obs_time_local)).map rowToObservation)
      ∧ List.Pairwise (fun a b => strLe a.obsTimeLocal b.obsTimeLocal = true) res
      ∧ ((∀ r ∈ sampleQueryStore, inDay dateJan1 dateJan2 r.obs_time_local = false)
          → res = []) :=
  query_by_date_correct "2024-01-01" dateJan1 dateJan2 sampleQueryStore (by decide) (by rfl)

/-! ### Aggregation lemmas -/

/-- Whether the eleven imperial fields read by `compile_daily_data` are all
present (non-NULL). -/
def fieldsPresent (o : QueriedObservation) : Bool :=
  o.imperial.tempHigh.isSome && o.imperial.tempLow.isSome && o.imperial.tempAvg.isSome
    && o.imperial.windspeedHigh.isSome && o.imperial.windspeedLow.isSome
    && o.imperial.windspeedAverage.isSome
    && o.imperial.windchillHigh.isSome && o.imperial.windchillLow.isSome
    && o.imperial.windchillAverage.isSome
    && o.imperial.precipRate.isSome && o.imperial.precipAverage.isSome

def obsTempHigh (o : QueriedObservation) : ℚ := o.imperial.tempHigh.getD 0
def obsTempLow (o : QueriedObservation) : ℚ := o.imperial.tempLow.getD 0
def obsTempAvg (o : QueriedObservation) : ℚ := o.imperial.tempAvg.getD 0
def obsWindHigh (o : QueriedObservation) : ℚ := o.imperial.windspeedHigh.getD 0
def obsWindLow (o : QueriedObservation) : ℚ := o.imperial.windspeedLow.getD 0
def obsWindAvg (o : QueriedObservation) : ℚ := o.imperial.windspeedAverage.getD 0
def obsChillHigh (o : QueriedObservation) : ℚ := o.imperial.windchillHigh.getD 0
def obsChillLow (o : QueriedObservation) : ℚ := o.imperial.windchillLow.getD 0
def obsChillAvg (o : QueriedObservation) : ℚ := o.imperial.windchillAverage.getD 0
def obsPrecipRate (o : QueriedObservation) : ℚ := o.imperial.precipRate.getD 0
def obsPrecipAvg (o : QueriedObservation) : ℚ := o.imperial.precipAverage.getD 0

/-- The running-`high` update: `if v > a: a = v`. -/
def hotter (a v : ℚ) : ℚ := if v > a then v else a

/-- The running-`low` update: `if v < a: a = v`. -/
def colder (a v : ℚ) : ℚ := if v < a then v else a

/-- The effect of one loop iteration when every read field is present. -/
def pureStep (acc : CompileAcc) (o : QueriedObservation) : CompileAcc where
  high_temp := hotter acc.high_temp (obsTempHigh o)
  low_temp := colder acc.low_temp (obsTempLow o)
  total_avg_temp := acc.total_avg_temp + obsTempAvg o
  high_windspeed := hotter acc.high_windspeed (obsWindHigh o)
  low_windspeed := colder acc.low_windspeed (obsWindLow o)
  total_avg_windspeed := acc.total_avg_windspeed + obsWindAvg o
  high_wind_chill := hotter acc.high_wind_chill (obsChillHigh o)
  low_wind_chill := colder acc.low_wind_chill (obsChillLow o)
  total_avg_windchill := acc.total_avg_windchill + obsChillAvg o
  high_precip_rate := hotter acc.high_precip_rate (obsPrecipRate o)
  precip_rate_avg := acc.precip_rate_avg + obsPrecipAvg o
  observation_count := acc.observation_count + 1

theorem compileStep_present (acc : CompileAcc) (o : QueriedObservation)
    (h : fieldsPresent o = true) : compileStep acc o = Except.ok (pureStep acc o) := by
  unfold fieldsPresent at h
  simp only [Bool.and_eq_true, Option.isSome_iff_exists] at h
  obtain ⟨⟨⟨⟨⟨⟨⟨⟨⟨⟨⟨v1, h1⟩, v2, h2⟩, v3, h3⟩, v4, h4⟩, v5, h5⟩, v6, h6⟩, v7, h7⟩,
    v8, h8⟩, v9, h9⟩, v10, h10⟩, v11, h11⟩ := h
  unfold compileStep pureStep hotter colder obsTempHigh obsTempLow obsTempAvg
    obsWindHigh obsWindLow obsWindAvg obsChillHigh obsChillLow obsChillAvg
    obsPrecipRate obsPrecipAvg
  rw [h1, h2, h3, h4, h5, h6, h7, h8, h9, h10, h11]
  rfl

theorem compileStep_missing (acc : CompileAcc) (o : QueriedObservation)
    (h : fieldsPresent o = false) : compileStep acc o = Except.error PyExc.typeError := by
  unfold fieldsPresent at h
  unfold compileStep
  rcases h1 : o.imperial.tempHigh with _ | v1
  · rfl
  rcases h2 : o.imperial.tempLow with _ | v2
  · rfl
  rcases h3 : o.imperial.tempAvg with _ | v3
  · rfl
  rcases h4 : o.imperial.windspeedHigh with _ | v4
  · rfl
  rcases h5 : o.imperial.windspeedLow with _ | v5
  · rfl
  rcases h6 : o.imperial.windspeedAverage with _ | v6
  · rfl
  rcases h7 : o.imperial.windchillHigh with _ | v7
  · rfl
  rcases h8 : o.imperial.windchillLow with _ | v8
  · rfl
  rcases h9 : o.imperial.windchillAverage with _ | v9
  · rfl
  rcases h10 : o.imperial.precipRate with _ | v10
  · rfl
  rcases h11 : o.imperial.precipAverage with _ | v11
  · rfl
  simp [h1, h2, h3, h4, h5, h6, h7, h8, h9, h10, h11] at h

theorem compileStep_ok_present {acc acc' : CompileAcc} {o : QueriedObservation}
    (h : compileStep acc o = Except.ok acc') : fieldsPresent o = true := by
  by_contra hc
  rw [compileStep_missing acc o (Bool.not_eq_true _ ▸ hc)] at h
  cases h

theorem compileLoop_present :
    ∀ (obs : List QueriedObservation) (acc : CompileAcc),
      (∀ o ∈ obs, fieldsPresent o = true) →
      compileLoop acc obs = Except.ok (obs.foldl pureStep acc) := by
  intro obs
  induction obs with
  | nil => intro acc _; rfl
  | cons o rest ih =>
    intro acc hall
    unfold compileLoop
    rw [compileStep_present acc o (hall o (List.mem_cons_self o rest))]
    exact ih (pureStep acc o) (fun x hx => hall x (List.mem_cons_of_mem o hx))

theorem compileLoop_missing :
    ∀ (obs : List QueriedObservation) (acc : CompileAcc),
      (∃ o ∈ obs, fieldsPresent o = false) →
      compileLoop acc obs = Except.error PyExc.typeError := by
  intro obs
  induction obs with
  | nil => intro acc h; exact absurd h (by simp)
  | cons o rest ih =>
    intro acc ⟨w, hw, hwf⟩
    unfold compileLoop
    rcases List.mem_cons.mp hw with rfl | hmem
    · rw [compileStep_missing acc w hwf]
      rfl
    · by_cases hf : fieldsPresent o = true
      · rw [compileStep_present acc o hf]
        exact ih (pureStep acc o) ⟨w, hmem, hwf⟩
      · rw [compileStep_missing acc o (Bool.not_eq_true _ ▸ hf)]
        rfl

theorem compileLoop_ok_present :
    ∀ (obs : List QueriedObservation) (acc acc' : CompileAcc),
      compileLoop acc obs = Except.ok acc' → ∀ o ∈ obs, fieldsPresent o = true := by
  intro obs
  induction obs with
  | nil => intro acc acc' _ o ho; exact absurd ho (List.not_mem_nil o)
  | cons o rest ih =>
    intro acc acc' h w hw
    unfold compileLoop at h
    rcases hstep : compileStep acc o with e | a
    · rw [hstep] at h; cases h
    · rw [hstep] at h
      rcases List.mem_cons.mp hw with rfl | hmem
      · exact compileStep_ok_present hstep
      · exact ih a acc' h w hmem

/-- Reference maximum of a list of values (the spec's "maximum of the
per-observation high values"). -/
def listMax : List ℚ → Option ℚ
  | [] => none
  | x :: xs =>
    some (match listMax xs with
      | none => x
      | some m => max x m)

/-- Reference minimum of a list of values. -/
def listMin : List ℚ → Option ℚ
  | [] => none
  | x :: xs =>
    some (match listMin xs with
      | none => x
      | some m => min x m)

theorem hotter_eq_max (a v : ℚ) : hotter a v = max a v := by
  unfold hotter
  split_ifs with h
  · exact (max_eq_right h.le).symm
  · exact (max_eq_left (not_lt.mp h)).symm

theorem colder_eq_min (a v : ℚ) : colder a v = min a v := by
  unfold colder
  split_ifs with h
  · exact (min_eq_right h.le).symm
  · exact (min_eq_left (not_lt.mp h)).symm

theorem foldl_hotter (l : List ℚ) :
    ∀ a : ℚ, l.foldl hotter a =
      (match listMax l with
        | none => a
        | some m => max a m) := by
  induction l with
  | nil => intro a; rfl
  | cons x xs ih =>
    intro a
    rw [List.foldl_cons, ih (hotter a x), listMax]
    rcases hm : listMax xs with _ | m
    · simp [hotter_eq_max]
    · simp only [hotter_eq_max]
      exact max_assoc a x m

theorem foldl_colder (l : List ℚ) :
    ∀ a : ℚ, l.foldl colder a =
      (match listMin l with
        | none => a
        | some m => min a m) := by
  induction l with
  | nil => intro a; rfl
  | cons x xs ih =>
    intro a
    rw [List.foldl_cons, ih (colder a x), listMin]
    rcases hm : listMin xs with _ | m
    · simp [colder_eq_min]
    · simp only [colder_eq_min]
      exact min_assoc a x m

theorem foldl_pureStep_char :
    ∀ (obs : List QueriedObservation) (acc : CompileAcc),
      obs.foldl pureStep acc =
        { high_temp := (obs.map obsTempHigh).foldl hotter acc.high_temp
          low_temp := (obs.map obsTempLow).foldl colder acc.low_temp
          total_avg_temp := acc.total_avg_temp + (obs.map obsTempAvg).sum
          high_windspeed := (obs.map obsWindHigh).foldl hotter acc.high_windspeed
          low_windspeed := (obs.map obsWindLow).foldl colder acc.low_windspeed
          total_avg_windspeed := acc.total_avg_windspeed + (obs.map obsWindAvg).sum
          high_wind_chill := (obs.map obsChillHigh).foldl hotter acc.high_wind_chill
          low_wind_chill := (obs.map obsChillLow).foldl colder acc.low_wind_chill
          total_avg_windchill := acc.total_avg_windchill + (obs.map obsChillAvg).sum
          high_precip_rate := (obs.map obsPrecipRate).foldl hotter acc.high_precip_rate
          precip_rate_avg := acc.precip_rate_avg + (obs.map obsPrecipAvg).sum
          observation_count := acc.observation_count + obs.length } := by
  intro obs
  induction obs with
  | nil => intro acc; cases acc; simp
  | cons o rest ih =>
    intro acc
    rw [List.foldl_cons, ih (pureStep acc o)]
    simp only [List.map_cons, List.foldl_cons, List.sum_cons, List.length_cons]
    dsimp only [pureStep]
    simp only [CompileAcc.mk.injEq]
    and_intros <;> first | rfl | trivial | ring | omega

/-- Successful construction of the pydantic model from fully supplied
fields. -/
theorem mkDailyObservation_some (a b c : String) (q1 q2 q3 q4 q5 q6 q7 q8 q9 q10 q11 : ℚ) :
    mkDailyObservation (some a) (some b) (some c) (some q1) (some q2) (some q3)
        (some q4) (some q5) (some q6) (some q7) (some q8) (some q9) (some q10) (some q11)
      = Except.ok
          { station_id := a
            obs_time_local := b
            friendly_date := c
            temp_high := q1
            temp_low := q2
            temp_avg := q3
            windspeed_high := q4
            windspeed_low := q5
            windspeed_avg := q6
            wind_chill_high := q7
            wind_chill_low := q8
            wind_chill_avg := q9
            precip_rate := q10
            precip_avg := q11 } := rfl

/-- What a successful `compile_daily_data` run computes: a non-empty input,
all read fields present, and every summary statistic equal to the
corresponding accumulator fold. -/
theorem compile_daily_data_ok_char {obs : List QueriedObservation} {s : DailyObservation}
    (h : compile_daily_data obs = Except.ok s) :
    obs ≠ []
    ∧ (∀ o ∈ obs, fieldsPresent o = true)
    ∧ s.temp_high = (obs.map obsTempHigh).foldl hotter 0
    ∧ s.temp_low = (obs.map obsTempLow).foldl colder 150
    ∧ s.temp_avg = pyRound2 ((obs.map obsTempAvg).sum / (obs.length : ℚ))
    ∧ s.windspeed_high = (obs.map obsWindHigh).foldl hotter 0
    ∧ s.windspeed_low = (obs.map obsWindLow).foldl colder 150
    ∧ s.windspeed_avg = pyRound2 ((obs.map obsWindAvg).sum / (obs.length : ℚ))
    ∧ s.wind_chill_high = (obs.map obsChillHigh).foldl hotter 0
    ∧ s.wind_chill_low = (obs.map obsChillLow).foldl colder 150
    ∧ s.wind_chill_avg = pyRound2 ((obs.map obsChillAvg).sum / (obs.length : ℚ))
    ∧ s.precip_rate = (obs.map obsPrecipRate).foldl hotter 0
    ∧ s.precip_avg = pyRound2 ((obs.map obsPrecipAvg).sum / (obs.length : ℚ)) := by
  match obs with
  | [] =>
    exact absurd h (by
      rw [show compile_daily_data [] = Except.error PyExc.validationError from rfl]
      simp)
  | o0 :: rest =>
    simp only [compile_daily_data] at h
    split at h
    · exact absurd h (by simp)
    · split at h
      · exact absurd h (by simp)
      · rename_i dt tod heq acc hloop
        have hpres := compileLoop_ok_present (o0 :: rest) {} acc hloop
        have hfold := compileLoop_present (o0 :: rest) {} hpres
        rw [hloop] at hfold
        have hacc : acc = (o0 :: rest).foldl pureStep {} := Except.ok.inj hfold
        rw [mkDailyObservation_some] at h
        have hs := (Except.ok.inj h).symm
        subst hs
        rw [hacc, foldl_pureStep_char (o0 :: rest) {}]
        refine ⟨by simp, hpres, ?_, ?_, ?_, ?_, ?_, ?_, ?_, ?_, ?_, ?_, ?_⟩ <;> simp

theorem foldl_hotter_of_max {l : List ℚ} {m : ℚ} (hm : listMax l = some m) (h0 : 0 ≤ m) :
    l.foldl hotter 0 = m := by
  rw [foldl_hotter, hm]
  exact max_eq_right h0

theorem foldl_colder_of_min {l : List ℚ} {m : ℚ} (hm : listMin l = some m) (h150 : m ≤ 150) :
    l.foldl colder 150 = m := by
  rw [foldl_colder, hm]
  exact min_eq_right h150

theorem foldl_hotter_fix (l : List ℚ) :
    ∀ a : ℚ, (∀ v ∈ l, v ≤ a) → l.foldl hotter a = a := by
  induction l with
  | nil => intro a _; rfl
  | cons x xs ih =>
    intro a hl
    rw [List.foldl_cons]
    have hx : hotter a x = a := by
      unfold hotter
      rw [if_neg (not_lt.mpr (hl x (List.mem_cons_self x xs)))]
    rw [hx]
    exact ih a (fun v hv => hl v (List.mem_cons_of_mem x hv))

theorem foldl_colder_fix (l : List ℚ) :
    ∀ a : ℚ, (∀ v ∈ l, a ≤ v) → l.foldl colder a = a := by
  induction l with
  | nil => intro a _; rfl
  | cons x xs ih =>
    intro a hl
    rw [List.foldl_cons]
    have hx : colder a x = a := by
      unfold colder
      rw [if_neg (not_lt.mpr (hl x (List.mem_cons_self x xs)))]
    rw [hx]
    exact ih a (fun v hv => hl v (List.mem_cons_of_mem x hv))

/-- C4 (amended).  On a successful run, each `avg` summary field is the
arithmetic mean of the per-observation averages rounded to two decimals,
and — provided the true maximum is nonnegative and the true minimum is at
most 150, i.e. the sentinel accumulators do not interfere — each `high`
field is the maximum of the per-observation highs and each `low` field the
minimum of the per-observation lows. -/
theorem compile_daily_data_stats {obs : List QueriedObservation} {s : DailyObservation}
    (h : compile_daily_data obs = Except.ok s) :
    (∀ m, listMax (obs.map obsTempHigh) = some m → 0 ≤ m → s.temp_high = m)
    ∧ (∀ m, listMin (obs.map obsTempLow) = some m → m ≤ 150 → s.temp_low = m)
    ∧ s.temp_avg = pyRound2 ((obs.map obsTempAvg).sum / (obs.length : ℚ))
    ∧ (∀ m, listMax (obs.map obsWindHigh) = some m → 0 ≤ m → s.windspeed_high = m)
    ∧ (∀ m, listMin (obs.map obsWindLow) = some m → m ≤ 150 → s.windspeed_low = m)
    ∧ s.windspeed_avg = pyRound2 ((obs.map obsWindAvg).sum / (obs.length : ℚ))
    ∧ (∀ m, listMax (obs.map obsChillHigh) = some m → 0 ≤ m → s.wind_chill_high = m)
    ∧ (∀ m, listMin (obs.map obsChillLow) = some m → m ≤ 150 → s.wind_chill_low = m)
    ∧ s.wind_chill_avg = pyRound2 ((obs.map obsChillAvg).sum / (obs.length : ℚ)) := by
  obtain ⟨-, -, hth, htl, hta, hwh, hwl, hwa, hch, hcl, hca, -, -⟩ :=
    compile_daily_data_ok_char h
  refine ⟨?_, ?_, hta, ?_, ?_, hwa, ?_, ?_, hca⟩
  · intro m hm h0; rw [hth]; exact foldl_hotter_of_max hm h0
  · intro m hm h150; rw [htl]; exact foldl_colder_of_min hm h150
  · intro m hm h0; rw [hwh]; exact foldl_hotter_of_max hm h0
  · intro m hm h150; rw [hwl]; exact foldl_colder_of_min hm h150
  · intro m hm h0; rw [hch]; exact foldl_hotter_of_max hm h0
  · intro m hm h150; rw [hcl]; exact foldl_colder_of_min hm h150

/-- Fully populated queried observation used by concrete inputs. -/
def qObs (t : String) (th tl ta wh wl wa ch cl ca pr pa : ℚ) : QueriedObservation where
  stationID := "KCOLSTN1"
  obsTimeLocal := t
  imperial :=
    { tempHigh := some th
      tempLow := some tl
      tempAvg := some ta
      humidity := some 50
      windspeedHigh := some wh
      windspeedLow := some wl
      windspeedAverage := some wa
      windchillHigh := some ch
      windchillLow := some cl
      windchillAverage := some ca
      precipRate := some pr
      precipAverage := some pa }

/-- The three-hour synthetic day from the claim: temp highs 70, 75, 68 and
temp lows 60, 55, 58 (avgs 65, 65, 63). -/
def threeHourDay : List QueriedObservation :=
  [qObs "2024-03-04 05:00:00" 70 60 65 12 2 6 68 58 62 0 0,
   qObs "2024-03-04 06:00:00" 75 55 65 14 4 8 73 53 63 0 0,
   qObs "2024-03-04 07:00:00" 68 58 63 10 1 5 66 56 61 0 0]

/-- C4 witness: on the synthetic day the theorem yields `temp_high = 75`,
`temp_low = 55`, and `temp_avg` = the rounded mean of 65, 65, 63. -/
theorem compile_daily_data_stats_witness :
    (compile_daily_data threeHourDay).map DailyObservation.temp_high = Except.ok 75
    ∧ (compile_daily_data threeHourDay).map DailyObservation.temp_low = Except.ok 55
    ∧ (compile_daily_data threeHourDay).map DailyObservation.temp_avg
        = Except.ok (pyRound2 ((65 + 65 + 63) / 3)) := by
  rcases hok : compile_daily_data threeHourDay with e | s
  · have hiso : (compile_daily_data threeHourDay).toOption.isSome = true := by rfl
    rw [hok] at hiso
    simp [Except.toOption] at hiso
  · obtain ⟨hth, htl, hta, -⟩ := compile_daily_data_stats hok
    have h1 : s.temp_high = 75 := hth 75 (by rfl) (by norm_num)
    have h2 : s.temp_low = 55 := htl 55 (by rfl) (by norm_num)
    have h3 : s.temp_avg = pyRound2 ((65 + 65 + 63) / 3) := by
      rw [hta]
      norm_num [threeHourDay, qObs, obsTempAvg]
    refine ⟨?_, ?_, ?_⟩ <;> simp only [Except.map, h1, h2, h3]

/-- Single observation whose temperature high is negative. -/
def negHighDay : List QueriedObservation :=
  [qObs "2024-03-04 05:00:00" (-5) 60 55 3 1 2 10 5 7 1 2]

/-- C4 counterexample: with a single observation whose `tempHigh` is `-5`,
the claimed result (the maximum, `-5`) differs from what the code computes
(`0`, the sentinel). -/
theorem compile_daily_data_neg_high_counterexample :
    (compile_daily_data negHighDay).map DailyObservation.temp_high = Except.ok 0
    ∧ listMax (negHighDay.map obsTempHigh) = some (-5)
    ∧ (0 : ℚ) ≠ -5 := by
  refine ⟨by rfl, by rfl, by norm_num⟩

/-- C5.  The `high` accumulators start at 0 and the `low` accumulators at
150: whenever every observation's value for a high-field is negative (or
every value for a low-field exceeds 150), the summary carries the sentinel
0 (or 150) for that field. -/
theorem compile_daily_data_sentinels {obs : List QueriedObservation} {s : DailyObservation}
    (h : compile_daily_data obs = Except.ok s) :
    ((∀ o ∈ obs, obsTempHigh o < 0) → s.temp_high = 0)
    ∧ ((∀ o ∈ obs, 150 < obsTempLow o) → s.temp_low = 150)
    ∧ ((∀ o ∈ obs, obsWindHigh o < 0) → s.windspeed_high = 0)
    ∧ ((∀ o ∈ obs, 150 < obsWindLow o) → s.windspeed_low = 150)
    ∧ ((∀ o ∈ obs, obsChillHigh o < 0) → s.wind_chill_high = 0)
    ∧ ((∀ o ∈ obs, 150 < obsChillLow o) → s.wind_chill_low = 150) := by
  obtain ⟨-, -, hth, htl, -, hwh, hwl, -, hch, hcl, -, -, -⟩ :=
    compile_daily_data_ok_char h
  refine ⟨?_, ?_, ?_, ?_, ?_, ?_⟩
  · intro hall
    rw [hth]
    exact foldl_hotter_fix _ 0 (by
      intro v hv
      obtain ⟨o, ho, rfl⟩ := List.mem_map.mp hv
      exact (hall o ho).le)
  · intro hall
    rw [htl]
    exact foldl_colder_fix _ 150 (by
      intro v hv
      obtain ⟨o, ho, rfl⟩ := List.mem_map.mp hv
      exact (hall o ho).le)
  · intro hall
    rw [hwh]
    exact foldl_hotter_fix _ 0 (by
      intro v hv
      obtain ⟨o, ho, rfl⟩ := List.mem_map.mp hv
      exact (hall o ho).le)
  · intro hall
    rw [hwl]
    exact foldl_colder_fix _ 150 (by
      intro v hv
      obtain ⟨o, ho, rfl⟩ := List.mem_map.mp hv
      exact (hall o ho).le)
  · intro hall
    rw [hch]
    exact foldl_hotter_fix _ 0 (by
      intro v hv
      obtain ⟨o, ho, rfl⟩ := List.mem_map.mp hv
      exact (hall o ho).le)
  · intro hall
    rw [hcl]
    exact foldl_colder_fix _ 150 (by
      intro v hv
      obtain ⟨o, ho, rfl⟩ := List.mem_map.mp hv
      exact (hall o ho).le)

/-- A day whose values all fall outside the sentinel range. -/
def outOfRangeDay : List QueriedObservation :=
  [qObs "2024-03-04 05:00:00" (-5) 200 10 (-3) 220 4 (-8) 300 2 0 0,
   qObs "2024-03-04 06:00:00" (-7) 180 11 (-2) 210 5 (-9) 280 3 0 0]

/-- C5 witness: the sentinel theorem at a concrete all-out-of-range day. -/
theorem compile_daily_data_sentinels_witness :
    (compile_daily_data outOfRangeDay).map DailyObservation.temp_high = Except.ok 0
    ∧ (compile_daily_data outOfRangeDay).map DailyObservation.temp_low = Except.ok 150
    ∧ (compile_daily_data outOfRangeDay).map DailyObservation.windspeed_high = Except.ok 0
    ∧ (compile_daily_data outOfRangeDay).map DailyObservation.windspeed_low = Except.ok 150
    ∧ (compile_daily_data outOfRangeDay).map DailyObservation.wind_chill_high = Except.ok 0
    ∧ (compile_daily_data outOfRangeDay).map DailyObservation.wind_chill_low
        = Except.ok 150 := by
  rcases hok : compile_daily_data outOfRangeDay with e | s
  · have hiso : (compile_daily_data outOfRangeDay).toOption.isSome = true := by rfl
    rw [hok] at hiso
    simp [Except.toOption] at hiso
  · obtain ⟨h1, h2, h3, h4, h5, h6⟩ := compile_daily_data_sentinels hok
    have g1 := h1 (by decide)
    have g2 := h2 (by decide)
    have g3 := h3 (by decide)
    have g4 := h4 (by decide)
    have g5 := h5 (by decide)
    have g6 := h6 (by decide)
    refine ⟨?_, ?_, ?_, ?_, ?_, ?_⟩ <;> simp only [Except.map, g1, g2, g3, g4, g5, g6]

/-- C6 (amended).  On a successful run the summary's precipitation `avg` is
the rounded mean of the per-observation `precipAverage` values — which the
query layer fills from the `precip_total` column — and, provided the true
maximum rate is nonnegative, the summary's precipitation rate is the
maximum of the per-observation rates. -/
theorem compile_daily_data_precip {obs : List QueriedObservation} {s : DailyObservation}
    (h : compile_daily_data obs = Except.ok s) :
    (∀ m, listMax (obs.map obsPrecipRate) = some m → 0 ≤ m → s.precip_rate = m)
    ∧ s.precip_avg = pyRound2 ((obs.map obsPrecipAvg).sum / (obs.length : ℚ))
    ∧ (∀ r : Row, (rowToObservation r).imperial.precipAverage = r.precip_total) := by
  obtain ⟨-, -, -, -, -, -, -, -, -, -, -, hpr, hpa⟩ := compile_daily_data_ok_char h
  refine ⟨?_, hpa, fun r => rfl⟩
  intro m hm h0
  rw [hpr]
  exact foldl_hotter_of_max hm h0

/-- A rainy three-hour day with rates 1/10, 3/10, 2/10 and totals
1/10, 4/10, 6/10. -/
def rainyDay : List QueriedObservation :=
  [qObs "2024-03-04 05:00:00" 70 60 65 12 2 6 68 58 62 (1/10) (1/10),
   qObs "2024-03-04 06:00:00" 75 55 65 14 4 8 73 53 63 (3/10) (4/10),
   qObs "2024-03-04 07:00:00" 68 58 63 10 1 5 66 56 61 (2/10) (6/10)]

/-- C6 witness: the precipitation theorem at the rainy day: rate max 3/10,
avg = rounded mean of the totals. -/
theorem compile_daily_data_precip_witness :
    (compile_daily_data rainyDay).map DailyObservation.precip_rate = Except.ok (3 / 10)
    ∧ (compile_daily_data rainyDay).map DailyObservation.precip_avg
        = Except.ok (pyRound2 ((1 / 10 + 4 / 10 + 6 / 10) / 3))
    ∧ (rowToObservation (rowOf (sampleRaw "2024-01-01 10:00:00" 9))).imperial.precipAverage
        = (rowOf (sampleRaw "2024-01-01 10:00:00" 9)).precip_total := by
  rcases hok : compile_daily_data rainyDay with e | s
  · have hiso : (compile_daily_data rainyDay).toOption.isSome = true := by rfl
    rw [hok] at hiso
    simp [Except.toOption] at hiso
  · obtain ⟨hpr, hpa, hrow⟩ := compile_daily_data_precip hok
    have h1 : s.precip_rate = 3 / 10 := hpr (3 / 10)
      (by norm_num [rainyDay, qObs, obsPrecipRate, listMax, max_def]) (by norm_num)
    have h2 : s.precip_avg = pyRound2 ((1 / 10 + 4 / 10 + 6 / 10) / 3) := by
      rw [hpa]
      norm_num [rainyDay, qObs, obsPrecipAvg]
    exact ⟨by simp only [Except.map, h1], by simp only [Except.map, h2], hrow _⟩

/-- Single observation with a negative precipitation rate. -/
def negRainDay : List QueriedObservation :=
  [qObs "2024-03-04 05:00:00" 70 60 65 12 2 6 68 58 62 (-1) 0]

/-- C6 counterexample: with a single observation whose precipitation rate
is `-1`, the claimed result (the maximum, `-1`) differs from what the code
computes (`0`, the sentinel). -/
theorem compile_daily_data_neg_rain_counterexample :
    (compile_daily_data negRainDay).map DailyObservation.precip_rate = Except.ok 0
    ∧ listMax (negRainDay.map obsPrecipRate) = some (-1)
    ∧ (0 : ℚ) ≠ -1 := by
  refine ⟨by rfl, by rfl, by norm_num⟩

/-- C10.  When any observation in the list carries a NULL in one of the
eleven imperial fields the loop reads — which the store permits, since
inserts write absent provider fields through as NULL (second conjunct) —
`compile_daily_data` raises `TypeError` from the comparison or addition on
that field (given that the last observation's timestamp parses, so the
failure is not the earlier strptime). -/
theorem compile_daily_data_null_field_raises {obs : List QueriedObservation}
    {olast o : QueriedObservation} {dtv : Date × Nat × Nat × Nat}
    (hlast : obs.getLast? = some olast)
    (hdt : parseDateTime olast.obsTimeLocal = some dtv)
    (hmem : o ∈ obs) (hmiss : fieldsPresent o = false) :
    compile_daily_data obs = Except.error PyExc.typeError
    ∧ (∀ ro : RawObservation, (rowOf ro).temperature_high = ro.imperial.tempHigh
        ∧ (rowOf ro).wind_speed_average = ro.imperial.windspeedAvg) := by
  refine ⟨?_, fun ro => ⟨rfl, rfl⟩⟩
  match obs, hmem with
  | o0 :: rest, hmem =>
    have hgl : (o0 :: rest).getLast (by simp) = olast := by
      rw [List.getLast?_eq_getLast (o0 :: rest) (by simp)] at hlast
      exact (Option.some.inj hlast)
    simp only [compile_daily_data]
    rw [hgl, hdt]
    rw [compileLoop_missing (o0 :: rest) {} ⟨o, hmem, hmiss⟩]

/-- Observation with a NULL `tempLow`. -/
def nullFieldObs : QueriedObservation where
  stationID := "KCOLSTN1"
  obsTimeLocal := "2024-03-04 05:00:00"
  imperial :=
    { tempHigh := some 70
      tempLow := none
      tempAvg := some 65
      humidity := some 50
      windspeedHigh := some 12
      windspeedLow := some 2
      windspeedAverage := some 6
      windchillHigh := some 68
      windchillLow := some 58
      windchillAverage := some 62
      precipRate := some 0
      precipAverage := some 0 }

/-- Concrete parse result of the timestamp of `nullFieldObs`. -/
def march4 : Date := ⟨2024, 3, 4, by decide⟩

/-- C10 witness: the theorem applied to a one-element list with a NULL
`tempLow`. -/
theorem compile_daily_data_null_field_raises_witness :
    compile_daily_data [nullFieldObs] = Except.error PyExc.typeError
    ∧ (∀ ro : RawObservation, (rowOf ro).temperature_high = ro.imperial.tempHigh
        ∧ (rowOf ro).wind_speed_average = ro.imperial.windspeedAvg) :=
  compile_daily_data_null_field_raises
    (show ([nullFieldObs]).getLast? = some nullFieldObs by decide)
    (show parseDateTime nullFieldObs.obsTimeLocal = some (march4, 5, 0, 0) by decide)
    (List.mem_singleton.mpr rfl) (by decide)

/-! ### Backfill lemmas -/

theorem fetchLoop_nil {fetch : String → List RawObservation} {sd ed : Date}
    (h : ¬ Date.le sd ed) : fetchLoop fetch sd ed = ([], Except.ok []) := by
  rw [fetchLoop.eq_def, dif_neg h]

theorem fetchLoop_step_ok {fetch : String → List RawObservation} {sd ed sd' : Date}
    (h : Date.le sd ed) (hx : nextDay sd = Except.ok sd') :
    fetchLoop fetch sd ed
      = (formatDate8 sd :: (fetchLoop fetch sd' ed).1,
         match (fetchLoop fetch sd' ed).2 with
         | Except.error e => Except.error e
         | Except.ok obs => Except.ok (fetch (formatDate8 sd) ++ obs)) := by
  rw [fetchLoop.eq_def, dif_pos h]
  dsimp only
  split
  · rename_i e heq
    rw [hx] at heq
    cases heq
  · rename_i d' heq
    rw [hx] at heq
    obtain rfl := Except.ok.inj heq
    rfl

theorem fetchLoop_step_err {fetch : String → List RawObservation} {sd ed : Date}
    {e : PyExc} (h : Date.le sd ed) (hx : nextDay sd = Except.error e) :
    fetchLoop fetch sd ed = ([formatDate8 sd], Except.error e) := by
  rw [fetchLoop.eq_def, dif_pos h]
  dsimp only
  split
  · rename_i e' heq
    rw [hx] at heq
    obtain rfl := Except.error.inj heq
    rfl
  · rename_i d' heq
    rw [hx] at heq
    cases heq

theorem walkDates_nil {sd ed : Date} (h : ¬ Date.le sd ed) : walkDates sd ed = [] := by
  rw [walkDates.eq_def, dif_neg h]

theorem walkDates_step_ok {sd ed sd' : Date} (h : Date.le sd ed)
    (hx : nextDay sd = Except.ok sd') : walkDates sd ed = sd :: walkDates sd' ed := by
  rw [walkDates.eq_def, dif_pos h]
  congr 1
  split
  · rename_i e heq
    rw [hx] at heq
    cases heq
  · rename_i d' heq
    rw [hx] at heq
    obtain rfl := Except.ok.inj heq
    rfl

theorem walkDates_step_err {sd ed : Date} {e : PyExc} (h : Date.le sd ed)
    (hx : nextDay sd = Except.error e) : walkDates sd ed = [sd] := by
  rw [walkDates.eq_def, dif_pos h]
  congr 1
  split
  · rfl
  · rename_i d' heq
    rw [hx] at heq
    cases heq

/-- A day below a non-maximal end bound is itself below `date.max`. -/
theorem ne_maxDate_of_le {sd ed : Date} (hle : Date.le sd ed) (hed : ed ≠ maxDate) :
    sd ≠ maxDate := by
  intro hsd
  subst hsd
  have h1 := toDays_le_of_le hle
  have h2 := toDays_le_of_le (Date.le_maxDate ed)
  exact hed (Date.eq_of_toDays_eq (by omega))

theorem fetchLoop_eq (fetch : String → List RawObservation) :
    ∀ (n : Nat) (sd ed : Date), toDays ed + 1 - toDays sd ≤ n → ed ≠ maxDate →
      fetchLoop fetch sd ed
        = ((walkDates sd ed).map formatDate8,
           Except.ok ((walkDates sd ed).flatMap (fun d => fetch (formatDate8 d)))) := by
  intro n
  induction n with
  | zero =>
    intro sd ed hle hed
    have hnle : ¬ Date.le sd ed := by
      intro hc
      have := toDays_le_of_le hc
      omega
    rw [fetchLoop_nil hnle, walkDates_nil hnle]
    rfl
  | succ n ih =>
    intro sd ed hle hed
    by_cases hc : Date.le sd ed
    · obtain ⟨sd', hx⟩ := nextDay_ok_of_ne (ne_maxDate_of_le hc hed)
      have hrec := ih sd' ed (by
        have := toDays_nextDay hx
        omega) hed
      rw [fetchLoop_step_ok hc hx, walkDates_step_ok hc hx, hrec]
      simp
    · rw [fetchLoop_nil hc, walkDates_nil hc]
      rfl

theorem walkDates_head {sd ed : Date} (h : Date.le sd ed) :
    (walkDates sd ed).head? = some sd := by
  rw [walkDates.eq_def, dif_pos h]
  rfl

theorem walkDates_getLast :
    ∀ (n : Nat) (sd ed : Date), toDays ed + 1 - toDays sd ≤ n → Date.le sd ed →
      (walkDates sd ed).getLast? = some ed := by
  intro n
  induction n with
  | zero =>
    intro sd ed hle hc
    have := toDays_le_of_le hc
    omega
  | succ n ih =>
    intro sd ed hle hc
    by_cases hmax : sd = maxDate
    · subst hmax
      have hed : ed = maxDate :=
        Date.eq_of_toDays_eq (by
          have h1 := toDays_le_of_le hc
          have h2 := toDays_le_of_le (Date.le_maxDate ed)
          omega)
      rw [walkDates_step_err hc nextDay_maxDate, hed]
      rfl
    · obtain ⟨sd', hx⟩ := nextDay_ok_of_ne hmax
      rw [walkDates_step_ok hc hx]
      by_cases hc2 : Date.le sd' ed
      · have hrec := ih sd' ed (by
          have := toDays_nextDay hx
          omega) hc2
        rcases hw : walkDates sd' ed with _ | ⟨w, ws⟩
        · rw [hw] at hrec
          cases hrec
        · rw [hw] at hrec
          rw [List.getLast?_cons_cons]
          exact hrec
      · have heq : sd = ed := by
          apply Date.eq_of_toDays_eq
          have h1 := toDays_le_of_le hc
          have h2 := toDays_nextDay hx
          have h3 : ¬ toDays sd' ≤ toDays ed := fun hcc =>
            hc2 (Date.le_of_toDays_le hcc)
          omega
        rw [walkDates_nil hc2, heq]
        rfl

theorem walkDates_chain :
    ∀ (n : Nat) (sd ed : Date), toDays ed + 1 - toDays sd ≤ n →
      List.Chain' (fun a b => nextDay a = Except.ok b) (walkDates sd ed) := by
  intro n
  induction n with
  | zero =>
    intro sd ed hle
    have hnle : ¬ Date.le sd ed := by
      intro hc
      have := toDays_le_of_le hc
      omega
    rw [walkDates_nil hnle]
    exact List.chain'_nil
  | succ n ih =>
    intro sd ed hle
    by_cases hc : Date.le sd ed
    · by_cases hmax : sd = maxDate
      · subst hmax
        rw [walkDates_step_err hc nextDay_maxDate]
        exact List.chain'_singleton _
      · obtain ⟨sd', hx⟩ := nextDay_ok_of_ne hmax
        rw [walkDates_step_ok hc hx]
        have hmeas : toDays ed + 1 - toDays sd' ≤ n := by
          have := toDays_nextDay hx
          omega
        refine List.chain'_cons'.mpr ⟨?_, ih sd' ed hmeas⟩
        intro y hy
        by_cases hc2 : Date.le sd' ed
        · rw [walkDates_head hc2] at hy
          rw [← Option.mem_some_iff.mp hy]
          exact hx
        · rw [walkDates_nil hc2] at hy
          cases hy
    · rw [walkDates_nil hc]
      exact List.chain'_nil

/-- C7 (amended).  For an inclusive, well-formed date range whose end lies
before `date.max` (so the `start_date += timedelta(days=1)` increment never
overflows), the backfill walks the days from start to end one day at a
time (the chain, head and last conjuncts), issues exactly one fetch per
visited day carrying its 8-digit date string (the call-trace
component), returns the day-ordered concatenation of the fetched batches,
and `init_db` hands that full concatenation to a single insert call. -/
theorem fetch_historical_backfill (fetch : String → List RawObservation)
    {ss es : String} {sd ed : Date}
    (hs : parseDate ss = some sd) (he : parseDate es = some ed)
    (hle : Date.le sd ed) (hed : ed ≠ maxDate) :
    fetch_historical_hourly_data fetch ss (some es)
        = ((walkDates sd ed).map formatDate8,
           Except.ok ((walkDates sd ed).flatMap (fun d => fetch (formatDate8 d))))
    ∧ (walkDates sd ed).head? = some sd
    ∧ (walkDates sd ed).getLast? = some ed
    ∧ List.Chain' (fun a b => nextDay a = Except.ok b) (walkDates sd ed)
    ∧ init_db fetch false ss es
        = Except.ok [(walkDates sd ed).flatMap (fun d => fetch (formatDate8 d))] := by
  have hloop := fetchLoop_eq fetch (toDays ed + 1 - toDays sd) sd ed (Nat.le_refl _) hed
  have hmain : fetch_historical_hourly_data fetch ss (some es)
      = ((walkDates sd ed).map formatDate8,
         Except.ok ((walkDates sd ed).flatMap (fun d => fetch (formatDate8 d)))) := by
    unfold fetch_historical_hourly_data
    rw [hs]
    dsimp only
    rw [he]
    dsimp only
    rw [hloop]
  refine ⟨hmain, walkDates_head hle,
    walkDates_getLast (toDays ed + 1 - toDays sd) sd ed (Nat.le_refl _) hle,
    walkDates_chain (toDays ed + 1 - toDays sd) sd ed (Nat.le_refl _), ?_⟩
  unfold init_db
  rw [if_neg (by simp), hmain]

/-- A fetch oracle answering one observation per requested date string. -/
def oneObsFetch (ds : String) : List RawObservation := [sampleRaw ds 1]

/-- C7 counterexample: a range ending at 9999-12-31 — well-formed and
inclusive — issues its per-day fetch (the call trace shows it) and then
raises `OverflowError` on the `start_date += timedelta(days=1)` increment,
so the accumulated list is never returned and `init_db` never reaches its
insert call, contradicting the claimed single insert for every inclusive
range. -/
theorem fetch_historical_overflow_counterexample :
    fetch_historical_hourly_data oneObsFetch "9999-12-31" (some "9999-12-31")
        = (["99991231"], Except.error PyExc.overflowError)
    ∧ init_db oneObsFetch false "9999-12-31" "9999-12-31"
        = Except.error PyExc.overflowError := by
  have h1 : fetchLoop oneObsFetch maxDate maxDate
      = (["99991231"], Except.error PyExc.overflowError) := by
    rw [fetchLoop_step_err (Date.le_refl maxDate) nextDay_maxDate]
    rfl
  have hfull : fetch_historical_hourly_data oneObsFetch "9999-12-31" (some "9999-12-31")
      = (["99991231"], Except.error PyExc.overflowError) := by
    unfold fetch_historical_hourly_data
    rw [show parseDate "9999-12-31" = some maxDate from by decide]
    dsimp only
    rw [show parseDate "9999-12-31" = some maxDate from by decide]
    dsimp only
    exact h1
  refine ⟨hfull, ?_⟩
  unfold init_db
  rw [if_neg (by simp), hfull]

theorem walkDates_jan1_jan3 : walkDates dateJan1 dateJan3 = [dateJan1, dateJan2, dateJan3] := by
  rw [walkDates_step_ok (by decide) (show nextDay dateJan1 = Except.ok dateJan2 from rfl)]
  rw [walkDates_step_ok (by decide) (show nextDay dateJan2 = Except.ok dateJan3 from rfl)]
  rw [walkDates_step_ok (by decide) (show nextDay dateJan3 = Except.ok dateJan4 from rfl)]
  rw [walkDates_nil (by decide)]

/-- C7 witness: backfilling 2024-01-01 through 2024-01-03 issues exactly
the calls 20240101, 20240102, 20240103 in that order, returns the
concatenated per-day results, and init_db performs one insert with that
list. -/
theorem fetch_historical_backfill_witness :
    fetch_historical_hourly_data oneObsFetch "2024-01-01" (some "2024-01-03")
        = (["20240101", "20240102", "20240103"],
           Except.ok [sampleRaw "20240101" 1, sampleRaw "20240102" 1, sampleRaw "20240103" 1])
    ∧ init_db oneObsFetch false "2024-01-01" "2024-01-03"
        = Except.ok [[sampleRaw "20240101" 1, sampleRaw "20240102" 1, sampleRaw "20240103" 1]] := by
  obtain ⟨hmain, -, -, -, hinit⟩ := fetch_historical_backfill oneObsFetch
    (show parseDate "2024-01-01" = some dateJan1 by decide)
    (show parseDate "2024-01-03" = some dateJan3 by decide) (by decide) (by decide)
  rw [walkDates_jan1_jan3] at hmain hinit
  refine ⟨?_, ?_⟩
  · rw [hmain]
    rfl
  · rw [hinit]
    rfl

/-! ### Rate-limit / retry claims -/

/-- A transport whose every response is a provider-side 429 rate-limit
rejection. -/
def always429 : Nat → Except PyExc HttpResponse := fun _ => Except.ok ⟨429, []⟩

/-- C8 counterexample: a provider-side rate-limit rejection (HTTP 429) is
not retried at all — the call surfaces `requests.HTTPError` after exactly
one attempt, not after 3 attempts with backoff as claimed.  Only the
client-side `ratelimit.RateLimitException` matches `@on_exception`'s
exception class; `raise_for_status` turns a 429 into an `HTTPError`. -/
theorem make_api_call_429_counterexample :
    make_api_call (fun _ => false) always429 = (Except.error (PyExc.httpError 429), 1)
    ∧ (1 : Nat) ≠ 3 := by
  exact ⟨rfl, by norm_num⟩

/-- C8 (amended).  The `@on_exception(expo, RateLimitException, max_tries=3)`
layer retries only the client-side `RateLimitException` raised by the
`@limits(calls=30, period=60)` window, up to 3 attempts total before the
exception surfaces; every provider-side HTTP failure — a 4xx/5xx status
turned into `HTTPError` by `raise_for_status`, including a provider
rate-limit 429, as well as any transport exception — is not retried and
propagates after a single attempt. -/
theorem make_api_call_retry_behaviour (limiterRejects : Nat → Bool)
    (transport : Nat → Except PyExc HttpResponse) :
    (∀ resp, limiterRejects 0 = false → transport 0 = Except.ok resp → 400 ≤ resp.status →
      make_api_call limiterRejects transport = (Except.error (PyExc.httpError resp.status), 1))
    ∧ (∀ e, limiterRejects 0 = false → transport 0 = Except.error e →
        e ≠ PyExc.rateLimitException →
        make_api_call limiterRejects transport = (Except.error e, 1))
    ∧ (limiterRejects 0 = true → limiterRejects 1 = true → limiterRejects 2 = true →
        make_api_call limiterRejects transport = (Except.error PyExc.rateLimitException, 3))
    ∧ (∀ resp, limiterRejects 0 = true → limiterRejects 1 = false →
        transport 1 = Except.ok resp → resp.status < 400 →
        make_api_call limiterRejects transport = (Except.ok resp.observations, 2)) := by
  refine ⟨?_, ?_, ?_, ?_⟩
  · intro resp h0 ht hst
    unfold make_api_call onExceptionGo limitedAttempt raise_for_status
    rw [h0, ht]
    simp [if_pos hst]
  · intro e h0 ht hne
    unfold make_api_call onExceptionGo limitedAttempt
    rw [h0, ht]
    simp only [Bool.false_eq_true, if_false]
    rcases e with _ | _ | _ | _ | st <;> simp_all
  · intro h0 h1 h2
    simp [make_api_call, onExceptionGo, limitedAttempt, raise_for_status, h0, h1, h2]
  · intro resp h0 h1 ht hst
    simp [make_api_call, onExceptionGo, limitedAttempt, raise_for_status, h0, h1, ht,
      Nat.not_le.mpr hst]

/-- A client-side limiter that rejects only the first attempt. -/
def limiterFirstOnly : Nat → Bool := fun i => i == 0

/-- A transport whose every response is a 200 with an empty body. -/
def transport200 : Nat → Except PyExc HttpResponse := fun _ => Except.ok ⟨200, []⟩

/-- C8 witness: with the client-side window exhausted three times the call
surfaces `RateLimitException` after 3 attempts; with one client-side
rejection followed by a 200 it succeeds on the second attempt. -/
theorem make_api_call_retry_behaviour_witness :
    make_api_call (fun _ => true) always429 = (Except.error PyExc.rateLimitException, 3)
    ∧ make_api_call limiterFirstOnly transport200 = (Except.ok [], 2) := by
  refine ⟨?_, ?_⟩
  · exact (make_api_call_retry_behaviour (fun _ => true) always429).2.2.1 rfl rfl rfl
  · exact (make_api_call_retry_behaviour limiterFirstOnly transport200).2.2.2
      ⟨200, []⟩ rfl rfl rfl (by norm_num)

/-! ### Invalid-date claims -/

/-- C9.  A malformed date string makes both date-accepting operations fail
with the `strptime` `ValueError` validation failure: `query_by_date`'s
result is that error for every possible store state (no row is read or
written), and the backfill errors for every fetch oracle (so no network
call can have been issued), whether the bad string is the start or the end
bound; `init_db`'s historical population propagates the same error before
its insert. -/
theorem invalid_date_rejected {ds : String} (h : parseDate ds = none) :
    (∀ store, query_by_date ds store = Except.error PyExc.valueError)
    ∧ (∀ fetch endd, fetch_historical_hourly_data fetch ds endd
        = ([], Except.error PyExc.valueError))
    ∧ (∀ fetch ss sd, parseDate ss = some sd →
        fetch_historical_hourly_data fetch ss (some ds)
          = ([], Except.error PyExc.valueError))
    ∧ (∀ fetch today, init_db fetch false ds today = Except.error PyExc.valueError) := by
  refine ⟨?_, ?_, ?_, ?_⟩
  · intro store
    unfold query_by_date
    rw [h]
  · intro fetch endd
    unfold fetch_historical_hourly_data
    rw [h]
  · intro fetch ss sd hss
    unfold fetch_historical_hourly_data
    rw [hss]
    dsimp only
    rw [h]
  · intro fetch today
    unfold init_db
    rw [if_neg (by simp)]
    unfold fetch_historical_hourly_data
    rw [h]

/-- C9 witness: the malformed date `2024-13-40` is rejected by every
date-accepting operation, independently of the store and of the network. -/
theorem invalid_date_rejected_witness :
    query_by_date "2024-13-40" sampleQueryStore = Except.error PyExc.valueError
    ∧ fetch_historical_hourly_data oneObsFetch "2024-13-40" none
        = ([], Except.error PyExc.valueError)
    ∧ fetch_historical_hourly_data oneObsFetch "2024-01-01" (some "2024-13-40")
        = ([], Except.error PyExc.valueError)
    ∧ init_db oneObsFetch false "2024-13-40" "2024-01-03"
        = Except.error PyExc.valueError := by
  obtain ⟨h1, h2, h3, h4⟩ :=
    invalid_date_rejected (show parseDate "2024-13-40" = none by decide)
  exact ⟨h1 sampleQueryStore, h2 oneObsFetch none,
    h3 oneObsFetch "2024-01-01" dateJan1 (by decide), h4 oneObsFetch "2024-01-03"⟩

end ClimeCapsule
